import Mathlib

/-!
# Greenhouse controller (`src/Greenhouse.cpp`)

A shallow embedding of the Arduino sketch: the global variables become one
record, every function of the sketch becomes a state transformer with the
same name, and every effect on the outside world (PWM writes, digital writes,
LCD and serial output, delays) is appended to an output trace.

Platform conventions used by the embedding (AVR Arduino, the board family the
sketch's `EEPROM.h` / LCD keypad shield wiring targets):

* `int` is a 16 bit two's complement integer; arithmetic is taken modulo
  `2 ^ 16` (`wrapInt`);
* `EEPROM.put` / `EEPROM.get` of an `int` move two bytes, low byte first;
* a `float` sensor value is a rational number; the only operations the sketch
  performs on it are a comparison with an `int` and the conversion to `int`
  (truncation toward zero), both exact on rationals.
-/

namespace Greenhouse

/-! ## Machine integers -/

/-- Value of a 16 bit two's complement `int` holding the mathematical integer `x`. -/
def wrapInt (x : Int) : Int := (x + 32768) % 65536 - 32768

/-- Smallest value of the platform `int`. -/
def INT_MIN : Int := -32768

/-- Largest value of the platform `int`. -/
def INT_MAX : Int := 32767

/-- The integer part of a rational: rounding toward zero. -/
def truncate (x : ℚ) : Int := Int.tdiv x.num x.den

/-- Conversion of a `float` to `int`: truncation toward zero. -/
def floatToInt (x : ℚ) : Int := wrapInt (truncate x)

/-- Arduino `map`: `(x - in_min) * (out_max - out_min) / (in_max - in_min) + out_min`,
the division truncating toward zero. -/
def map (x in_min in_max out_min out_max : Int) : Int :=
  Int.tdiv ((x - in_min) * (out_max - out_min)) (in_max - in_min) + out_min

/-! ## Constants of the sketch -/

/-- Button codes returned by `read_LCD_buttons`. -/
inductive Key where
  | btnRIGHT
  | btnUP
  | btnDOWN
  | btnLEFT
  | btnSELECT
  | btnNONE
  deriving DecidableEq, Repr

/-- Numeric code of a button (`#define btnRIGHT 0` ... `#define btnNONE 5`). -/
def Key.code : Key → Int
  | .btnRIGHT => 0
  | .btnUP => 1
  | .btnDOWN => 2
  | .btnLEFT => 3
  | .btnSELECT => 4
  | .btnNONE => 5

/-- Pump control pin (PWM). -/
def Pump : Int := 3

/-- Fan control pin (PWM). -/
def Fan : Int := 11

/-- Light control pin. -/
def LED : Int := 12

/-- EEPROM address of the temperature threshold. -/
def addressTemp : Nat := 0

/-- EEPROM address of the fan base offset. -/
def addressFan : Nat := 5

/-- EEPROM address of the light threshold. -/
def addressLight : Nat := 10

/-- EEPROM address of the pump base offset. -/
def addressPump : Nat := 15

/-- EEPROM address of the moisture threshold. -/
def addressMoisture : Nat := 25

/-- The menu table `char menu[7][13]`. -/
def menu : List String :=
  ["Set TEMP ", "Set PUMP ", "Set Cell ", "Set Fan", "Set Moisture", "About ", "  "]

/-- Row `index` of the menu table, `none` when the index is outside the table. -/
def menuAt (index : Int) : Option String :=
  if 0 ≤ index then menu.get? index.toNat else none

/-! ## Outputs and state -/

/-- One effect on the outside world. -/
inductive Event where
  | analogWrite (pin value : Int)
  | digitalWrite (pin : Int) (high : Bool)
  | delay (ms : Nat)
  | lcdClear
  | lcdSetCursor (col row : Nat)
  | lcdPrint (text : String)
  | lcdPrintInt (value : Int)
  | lcdPrintFloat (value : ℚ)
  | lcdPrintMenu (index : Int)
  | serialPrint (text : String)
  | serialPrintInt (value : Int)
  | serialPrintln (text : String)
  | serialPrintlnInt (value : Int)
  deriving DecidableEq

/-- The record `struct parameter lcdParametr` mirrored on the status display. -/
structure Parameter where
  speed_fan : Int
  speed_pump : Int
  temp_value : ℚ
  mois_value : Int
  light_value : Int

/-- Contents of the EEPROM: one byte per address. -/
abbrev Eeprom := Nat → Fin 256

/-- The global variables of the sketch, the EEPROM and the output trace
(oldest event first). -/
structure State where
  lcdParametr : Parameter
  key : Key
  i : Int
  Temp : Int
  Moisture : Int
  speedFan : Int
  lightLED : Int
  speedPump : Int
  START : Int
  eeprom : Eeprom
  out : List Event

/-- The values the sensors deliver in one control cycle: `temper.cel()`,
`analogRead(Mois)` and `analogRead(photoCellValue)`. -/
structure Sensors where
  cel : ℚ
  mois : Int
  photo : Int

/-- Append one event to the output trace. -/
def emit (e : Event) (s : State) : State := { s with out := s.out ++ [e] }

/-- Source `analogWrite(pin, value)`. -/
def analogWrite (pin value : Int) (s : State) : State := emit (.analogWrite pin value) s

/-- Source `digitalWrite(pin, level)`. -/
def digitalWrite (pin : Int) (high : Bool) (s : State) : State :=
  emit (.digitalWrite pin high) s

/-- Source `delay(ms)`. -/
def delay (ms : Nat) (s : State) : State := emit (.delay ms) s

/-- Values written with `analogWrite` to `pin`, in order. -/
def analogWrites (pin : Int) (evs : List Event) : List Int :=
  evs.filterMap fun e =>
    match e with
    | .analogWrite p v => if p = pin then some v else none
    | _ => none

/-- Levels written with `digitalWrite` to `pin`, in order. -/
def digitalWrites (pin : Int) (evs : List Event) : List Bool :=
  evs.filterMap fun e =>
    match e with
    | .digitalWrite p b => if p = pin then some b else none
    | _ => none

/-- The events `s1` has emitted beyond those already in `s0`. -/
def emitted (s0 s1 : State) : List Event := s1.out.drop s0.out.length

/-! ## Sensors and actuators -/

/-- Source `getMois`, on the raw sample `analogRead(Mois)`. -/
def getMois (value : Int) : Int := wrapInt (map value 0 1023 100 0)

/-- Source `getPhotoCell`, on the raw sample `analogRead(photoCellValue)`. -/
def getPhotoCell (value : Int) : Int := wrapInt (map value 0 1023 0 100)

/-- Source `startFan`. -/
def startFan (value : Int) (s : State) : State :=
  if value ≠ 0 then
    let temp := wrapInt (value - s.Temp)
    let s := if s.START = 0 then delay 2000 (analogWrite Fan 200 s) else s
    let s := analogWrite Fan (wrapInt (wrapInt (temp + 10) + s.speedFan)) s
    let s := { s with lcdParametr :=
      { s.lcdParametr with speed_fan := wrapInt (wrapInt (temp + 10) + s.speedFan) } }
    { s with START := 1 }
  else
    let s := analogWrite Fan 0 s
    { s with START := 0 }

/-- Source `startPump`. -/
def startPump (value : Int) (s : State) : State :=
  if value ≠ 0 then
    let s := analogWrite Pump (wrapInt (value + s.speedPump)) s
    { s with lcdParametr := { s.lcdParametr with speed_pump := wrapInt (value + s.speedPump) } }
  else
    let s := analogWrite Pump 0 s
    { s with lcdParametr := { s.lcdParametr with speed_pump := 0 } }

/-- Source `pwmLED`. -/
def pwmLED (pwm : Int) (s : State) : State :=
  if pwm ≠ 0 then digitalWrite LED true s else digitalWrite LED false s

/-- Source `checkParameter`: one control cycle on the sensor values `r`. -/
def checkParameter (r : Sensors) (s : State) : State :=
  let tempValue := r.cel
  let s := { s with lcdParametr := { s.lcdParametr with temp_value := tempValue } }
  let s :=
    if tempValue > (s.Temp : ℚ) then
      startFan (floatToInt tempValue) s
    else
      let s := startFan 0 s
      { s with lcdParametr := { s.lcdParametr with speed_fan := 0 } }
  let moisValue := getMois r.mois
  let s := { s with lcdParametr := { s.lcdParametr with mois_value := moisValue } }
  let s :=
    if s.Moisture > moisValue then
      startPump moisValue s
    else
      let s := startPump 0 s
      { s with lcdParametr := { s.lcdParametr with speed_pump := 0 } }
  let cellValue := getPhotoCell r.photo
  let s := { s with lcdParametr := { s.lcdParametr with light_value := cellValue } }
  if cellValue < s.lightLED then pwmLED 1 s else pwmLED 0 s

/-- The value `(temp + 10) + speedFan` that `startFan(value)` computes. -/
def fanTarget (value : Int) (s : State) : Int :=
  wrapInt (wrapInt (wrapInt (value - s.Temp) + 10) + s.speedFan)

/-- The events of `startFan(value)`. -/
def fanEvents (value : Int) (s : State) : List Event :=
  if value ≠ 0 then
    (if s.START = 0 then [.analogWrite Fan 200, .delay 2000] else []) ++
      [.analogWrite Fan (fanTarget value s)]
  else [.analogWrite Fan 0]

/-- The events of `startPump(value)`. -/
def pumpEvents (value : Int) (s : State) : List Event :=
  if value ≠ 0 then [.analogWrite Pump (wrapInt (value + s.speedPump))]
  else [.analogWrite Pump 0]

/-- The argument `checkParameter` passes to `startFan`. -/
def fanArg (r : Sensors) (s : State) : Int :=
  if r.cel > (s.Temp : ℚ) then floatToInt r.cel else 0

/-- The argument `checkParameter` passes to `startPump`. -/
def pumpArg (r : Sensors) (s : State) : Int :=
  if s.Moisture > getMois r.mois then getMois r.mois else 0

/-- Largest duty value of a PWM output (`analogWrite` takes 0 to 255). -/
def PWM_MAX : Int := 255

/-- The power-on state: zero-initialised globals, `key = btnNONE`, an erased
EEPROM (every byte `0xFF`) and an empty trace. -/
def State.init : State :=
  { lcdParametr := { speed_fan := 0, speed_pump := 0, temp_value := 0, mois_value := 0,
                     light_value := 0 }
    key := .btnNONE
    i := 0
    Temp := 0
    Moisture := 0
    speedFan := 0
    lightLED := 0
    speedPump := 0
    START := 0
    eeprom := fun _ => 255
    out := [] }

/-! ## Persistent storage -/

/-- Source `EEPROM.get(address, value)` for an `int`: the two bytes at `address`,
low byte first, read as a two's complement number. -/
def EEPROM_get (address : Nat) (mem : Eeprom) : Int :=
  wrapInt ((mem address).val + 256 * (mem (address + 1)).val)

/-- Source `EEPROM.put(address, value)` for an `int`: the two bytes of the
two's complement representation of `value` go to `address` and `address + 1`. -/
def EEPROM_put (address : Nat) (value : Int) (mem : Eeprom) : Eeprom :=
  fun a =>
    if a = address then ⟨(value % 65536).toNat % 256, Nat.mod_lt _ (by decide)⟩
    else if a = address + 1 then ⟨(value % 65536).toNat / 256 % 256, Nat.mod_lt _ (by decide)⟩
    else mem a

/-- Source `updateSystem`: reload the five cached settings from the EEPROM. -/
def updateSystem (s : State) : State :=
  { s with
    Temp := EEPROM_get addressTemp s.eeprom
    speedFan := EEPROM_get addressFan s.eeprom
    lightLED := EEPROM_get addressLight s.eeprom
    speedPump := EEPROM_get addressPump s.eeprom
    Moisture := EEPROM_get addressMoisture s.eeprom }

/-- Source `setup`, as far as the state is concerned: the same five loads. -/
def setup (s : State) : State :=
  { s with
    Temp := EEPROM_get addressTemp s.eeprom
    speedFan := EEPROM_get addressFan s.eeprom
    lightLED := EEPROM_get addressLight s.eeprom
    speedPump := EEPROM_get addressPump s.eeprom
    Moisture := EEPROM_get addressMoisture s.eeprom }

/-- The five settings of the configuration. -/
inductive Field where
  | tempThreshold
  | fanBaseOffset
  | lightThreshold
  | pumpBaseOffset
  | moistureThreshold
  deriving DecidableEq, Repr

/-- The EEPROM address of a setting. -/
def Field.address : Field → Nat
  | .tempThreshold => addressTemp
  | .fanBaseOffset => addressFan
  | .lightThreshold => addressLight
  | .pumpBaseOffset => addressPump
  | .moistureThreshold => addressMoisture

/-- The global variable caching a setting. -/
def Field.cached : Field → State → Int
  | .tempThreshold, s => s.Temp
  | .fanBaseOffset, s => s.speedFan
  | .lightThreshold, s => s.lightLED
  | .pumpBaseOffset, s => s.speedPump
  | .moistureThreshold, s => s.Moisture

/-- The pin `setValue` previews a setting on (the third argument in `setTemp` ... `setMoisture`). -/
def Field.pin : Field → Int
  | .tempThreshold => 0
  | .fanBaseOffset => Fan
  | .lightThreshold => LED
  | .pumpBaseOffset => Pump
  | .moistureThreshold => 0

/-- The title `setValue` shows for a setting (the first argument in `setTemp` ... `setMoisture`). -/
def Field.title : Field → String
  | .tempThreshold => "Set Temp:"
  | .fanBaseOffset => "Set Fan:"
  | .lightThreshold => "Set Light:"
  | .pumpBaseOffset => "Set Pump:"
  | .moistureThreshold => "Set Moisture:"

/-- The menu entry (the `case` of `runMenu`) that edits a setting. -/
def Field.menuIndex : Field → Int
  | .tempThreshold => 0
  | .pumpBaseOffset => 1
  | .lightThreshold => 2
  | .fanBaseOffset => 3
  | .moistureThreshold => 4

/-! ## Menu -/

/-- Append several events to the output trace, in order. -/
def emits (es : List Event) (s : State) : State := { s with out := s.out ++ es }

/-- Where control is while the operator panel is in use. -/
inductive Ctl where
  /-- `displayMenu` is not running: control is in `loop`. -/
  | idle (s : State)
  /-- Control is at `key = getKey()` in the loop of `displayMenu`. -/
  | browsing (s : State)
  /-- Control is at `key = getKey()` in the loop of `setValue(_, address, pin)`,
  with the local variable `value`. -/
  | editing (address : Nat) (pin : Int) (value : Int) (s : State)

/-- The state carried by a control point. -/
def Ctl.state : Ctl → State
  | .idle s => s
  | .browsing s => s
  | .editing _ _ _ s => s

/-- Control is in `loop`. -/
def Ctl.isIdle : Ctl → Bool
  | .idle _ => true
  | _ => false

/-- Control is in the loop of `displayMenu`. -/
def Ctl.isBrowsing : Ctl → Bool
  | .browsing _ => true
  | _ => false

/-- Control is in the loop of `setValue`. -/
def Ctl.isEditing : Ctl → Bool
  | .editing _ _ _ _ => true
  | _ => false

/-- Source `getKey`, its effect on the state: the debounce delay. The button
read is the argument `k` of the callers below. -/
def getKey (s : State) : State := delay 250 s

/-- Source `showMenu`. -/
def showMenu (index : Int) (s : State) : State :=
  let s := { s with i := index }
  let s := emits [.lcdClear, .lcdPrint ">", .lcdPrintMenu index] s
  if index ≤ 5 then emits [.lcdSetCursor 1 1, .lcdPrintMenu (wrapInt (index + 1))] s else s

/-- Source `about`. -/
def about (s : State) : State :=
  emits [.lcdClear, .lcdPrint "Plant Control Sys", .lcdSetCursor 0 1, .lcdPrint "By Your Name",
    .delay 3000] s

/-- The loop condition `while (key != btnLEFT)` of `displayMenu`. -/
def displayMenuTest (s : State) : Ctl :=
  if s.key ≠ .btnLEFT then .browsing s else .idle s

/-- What `displayMenu` does once `runMenu` has returned: `key = btnLEFT`, then
the loop condition. -/
def afterRunMenu (s : State) : Ctl := displayMenuTest { s with key := .btnLEFT }

/-- Source `setValue`, up to the first `getKey` of its loop. -/
def setValue (title : String) (address : Nat) (pin : Int) (s : State) : Ctl :=
  let value := EEPROM_get address s.eeprom
  let s := emits [.lcdClear, .lcdPrint title] s
  .editing address pin value s

/-- Source `setValue`, the statements after its loop. -/
def setValueSave (address : Nat) (value : Int) (s : State) : State :=
  let s := { s with eeprom := EEPROM_put address value s.eeprom }
  let s := updateSystem s
  emits [.lcdClear, .lcdPrint "Saved!", .delay 1200] s

/-- Source `setValue`, one pass of its loop on the button `k`, and what follows
when the loop ends. -/
def setValueStep (address : Nat) (pin : Int) (k : Key) (value : Int) (s : State) : Ctl :=
  let s := { getKey s with key := k }
  let value :=
    if k = .btnUP then wrapInt (value + 1)
    else if k = .btnDOWN then wrapInt (value - 1)
    else value
  let s := emits [.lcdSetCursor 0 1, .lcdPrintInt value, .lcdPrint "  "] s
  let s := analogWrite pin value s
  if s.key ≠ .btnSELECT then .editing address pin value s
  else afterRunMenu (setValueSave address value s)

/-- Source `setTemp`. -/
def setTemp (s : State) : Ctl := setValue "Set Temp:" addressTemp 0 s

/-- Source `setPump`. -/
def setPump (s : State) : Ctl := setValue "Set Pump:" addressPump Pump s

/-- Source `setCell`. -/
def setCell (s : State) : Ctl := setValue "Set Light:" addressLight LED s

/-- Source `setFan`. -/
def setFan (s : State) : Ctl := setValue "Set Fan:" addressFan Fan s

/-- Source `setMoisture`. -/
def setMoisture (s : State) : Ctl := setValue "Set Moisture:" addressMoisture 0 s

/-- Source `runMenu`, followed by the rest of the `btnSELECT` branch of
`displayMenu`. -/
def runMenu (option : Int) (s : State) : Ctl :=
  if option = 0 then setTemp s
  else if option = 1 then setPump s
  else if option = 2 then setCell s
  else if option = 3 then setFan s
  else if option = 4 then setMoisture s
  else if option = 5 then afterRunMenu (about s)
  else afterRunMenu s

/-- Source `displayMenu`, up to the first `getKey` of its loop. -/
def displayMenu (s : State) : Ctl :=
  let s := { s with i := 0 }
  .browsing (showMenu s.i s)

/-- Source `displayMenu`, one pass of its loop on the button `k`. -/
def displayMenuStep (k : Key) (s : State) : Ctl :=
  let s := { getKey s with key := k }
  if s.key = .btnDOWN ∧ s.i ≤ 4 then displayMenuTest (showMenu (wrapInt (s.i + 1)) s)
  else if s.key = .btnUP ∧ s.i ≤ 4 then displayMenuTest (showMenu (wrapInt (s.i - 1)) s)
  else if s.key = .btnSELECT then runMenu s.i s
  else displayMenuTest s

/-- The first statement of `loop`: `if (getKey() == btnRIGHT) displayMenu();`. -/
def loopKey (k : Key) (s : State) : Ctl :=
  let s := getKey s
  if k = .btnRIGHT then displayMenu s else .idle s

/-- One button read while the menu is in use. In `idle` the menu is not
running and reads no button. -/
def menuStep (k : Key) : Ctl → Ctl
  | .idle s => .idle s
  | .browsing s => displayMenuStep k s
  | .editing address pin value s => setValueStep address pin k value s

/-- The menu on a sequence of button reads. -/
def menuRun (keys : List Key) (c : Ctl) : Ctl := keys.foldl (fun c k => menuStep k c) c

/-- The cursor `i` at a control point. -/
def Ctl.cursor (c : Ctl) : Int := c.state.i

/-! ## Buttons, status display and main loop -/

/-- Source `read_LCD_buttons`, on the raw sample `analogRead(0)`. -/
def read_LCD_buttons (adc_key_in : Int) : Key :=
  if adc_key_in > 1000 then .btnNONE
  else if adc_key_in < 50 then .btnRIGHT
  else if adc_key_in < 250 then .btnUP
  else if adc_key_in < 450 then .btnDOWN
  else if adc_key_in < 650 then .btnLEFT
  else if adc_key_in < 850 then .btnSELECT
  else .btnNONE

/-- Source `showParametrer`: the two pages of the status display. -/
def showParametrer (s : State) : State :=
  let s := emits [.lcdClear, .lcdPrint "Temp: ", .lcdPrintFloat s.lcdParametr.temp_value,
    .lcdPrint "C", .lcdSetCursor 0 1, .lcdPrint "Mois: ", .lcdPrintInt s.lcdParametr.mois_value,
    .lcdPrint "%", .delay 1000] s
  emits [.lcdClear, .lcdPrint "Fan: ", .lcdPrintInt s.lcdParametr.speed_fan,
    .lcdPrint " Pump: ", .lcdPrintInt s.lcdParametr.speed_pump, .lcdSetCursor 0 1,
    .lcdPrint "Light: ", .lcdPrintInt s.lcdParametr.light_value, .lcdPrint "%", .delay 1000] s

/-- The `switch (ch)` of `loop` on a character read from the serial line. -/
def serialCommand (ch : Char) (s : State) : State :=
  if ch = '1' then emit (.serialPrintln "LED ON") (digitalWrite LED true s)
  else if ch = '2' then emit (.serialPrintln "LED OFF") (digitalWrite LED false s)
  else if ch = '3' then emits [.serialPrint "Light Level: ", .serialPrintlnInt s.lightLED] s
  else s

/-- Source `loop` after its first statement: status display, control cycle,
and the serial command when a character is available. -/
def loopRest (r : Sensors) (serial : Option Char) (s : State) : State :=
  let s := showParametrer s
  let s := checkParameter r s
  match serial with
  | some ch => serialCommand ch s
  | none => s

/-- Source `loop`, one pass: the button `k`, the buttons `menuKeys` read while
the menu is open, the sensor values `r` and the serial character. When the
buttons run out inside the menu, control stays there. -/
def loop (k : Key) (menuKeys : List Key) (r : Sensors) (serial : Option Char) (s : State) :
    Ctl :=
  match menuRun menuKeys (loopKey k s) with
  | .idle s1 => .idle (loopRest r serial s1)
  | c => c

/-- The five cached settings and the EEPROM of `s1` are those of `s0`. -/
def sameConfig (s0 s1 : State) : Prop :=
  s1.Temp = s0.Temp ∧ s1.speedFan = s0.speedFan ∧ s1.lightLED = s0.lightLED ∧
    s1.speedPump = s0.speedPump ∧ s1.Moisture = s0.Moisture ∧ s1.eeprom = s0.eeprom

/-! ## Concrete inputs used to evaluate the sketch -/

/-- A reading with completely dry soil: the raw moisture sample 1023 is 0 percent. -/
def dryReading : Sensors := { cel := 30, mois := 1023, photo := 0 }

/-- Moisture threshold 40 and pump base offset 5. -/
def dryState : State := { State.init with Moisture := 40, speedPump := 5 }

/-- A reading of 0 degrees. -/
def freezingReading : Sensors := { cel := 0, mois := 500, photo := 50 }

/-- Temperature threshold -5, fan base offset 0. -/
def freezingState : State := { State.init with Temp := -5 }

/-- A reading of 30 degrees, 20 percent moisture (raw 819), 10 percent light (raw 103). -/
def hotReading : Sensors := { cel := 30, mois := 819, photo := 103 }

/-- Temperature threshold 25 and fan base offset 1000. -/
def bigOffsetState : State := { State.init with Temp := 25, speedFan := 1000 }

/-- Thresholds 25 / 40 / 30, no offsets, fan off (`START = 0`). -/
def fanOffState : State := { State.init with Temp := 25, Moisture := 40, lightLED := 30 }

/-- Thresholds 25 / 40 / 30, no offsets, fan already running (`START = 1`). -/
def fanOnState : State := { fanOffState with START := 1 }

/-- The cursor on the Pump entry. -/
def pumpEntryState : State := { State.init with i := 1 }

/-- Buttons pressed while editing, before the confirming Select. -/
def editKeys : List Key := [.btnUP, .btnUP, .btnLEFT, .btnDOWN, .btnNONE, .btnUP, .btnRIGHT]

/-- The cursor on the About entry. -/
def aboutEntryState : State := { State.init with i := 5 }

/-- Buttons pressed while browsing. -/
def browseKeys : List Key := [.btnDOWN, .btnDOWN, .btnDOWN, .btnDOWN, .btnDOWN, .btnDOWN, .btnUP]

/-- A reading of 20 degrees, 60 percent moisture (raw 410), 50 percent light (raw 512). -/
def coolReading : Sensors := { cel := 20, mois := 410, photo := 512 }

/-- Temperature threshold -5, the fan running at the recorded speed 45. -/
def staleFanState : State :=
  { State.init with
    Temp := -5
    START := 1
    lcdParametr := { State.init.lcdParametr with speed_fan := 45 } }

/-- Buttons of a menu visit that only moves the cursor. -/
def visitKeys : List Key := [.btnDOWN, .btnUP, .btnUP, .btnDOWN, .btnDOWN]

/-! ## Arithmetic facts -/

theorem wrapInt_of_range (x : Int) (h0 : INT_MIN ≤ x) (h1 : x ≤ INT_MAX) : wrapInt x = x := by
  unfold wrapInt
  unfold INT_MIN at h0
  unfold INT_MAX at h1
  omega

theorem wrapInt_add_left (x y : Int) : wrapInt (wrapInt x + y) = wrapInt (x + y) := by
  unfold wrapInt
  omega

theorem wrapInt_sub_left (x y : Int) : wrapInt (wrapInt x - y) = wrapInt (x - y) := by
  unfold wrapInt
  omega

/-! ## The control cycle -/

theorem startFan_eq (value : Int) (s : State) :
    startFan value s =
      { s with
        START := if value ≠ 0 then 1 else 0
        lcdParametr :=
          { s.lcdParametr with
            speed_fan := if value ≠ 0 then fanTarget value s else s.lcdParametr.speed_fan }
        out := s.out ++ fanEvents value s } := by
  unfold startFan fanEvents fanTarget analogWrite delay emit
  split_ifs <;> simp

theorem startPump_eq (value : Int) (s : State) :
    startPump value s =
      { s with
        lcdParametr :=
          { s.lcdParametr with
            speed_pump := if value ≠ 0 then wrapInt (value + s.speedPump) else 0 }
        out := s.out ++ pumpEvents value s } := by
  unfold startPump pumpEvents analogWrite emit
  split_ifs <;> simp

theorem pwmLED_eq (pwm : Int) (s : State) :
    pwmLED pwm s = { s with out := s.out ++ [.digitalWrite LED (decide (pwm ≠ 0))] } := by
  unfold pwmLED digitalWrite emit
  split_ifs <;> simp_all

/-- Closed form of one control cycle. -/
theorem checkParameter_eq (r : Sensors) (s : State) :
    checkParameter r s =
      { s with
        START := if fanArg r s ≠ 0 then 1 else 0
        lcdParametr :=
          { speed_fan :=
              if r.cel > (s.Temp : ℚ) then
                (if floatToInt r.cel ≠ 0 then fanTarget (floatToInt r.cel) s
                 else s.lcdParametr.speed_fan)
              else 0
            speed_pump := if pumpArg r s ≠ 0 then wrapInt (pumpArg r s + s.speedPump) else 0
            temp_value := r.cel
            mois_value := getMois r.mois
            light_value := getPhotoCell r.photo }
        out := s.out ++ (fanEvents (fanArg r s) s ++ (pumpEvents (pumpArg r s) s ++
          [.digitalWrite LED (decide (getPhotoCell r.photo < s.lightLED))])) } := by
  unfold checkParameter fanArg pumpArg
  simp only [startFan_eq, startPump_eq, pwmLED_eq]
  split_ifs <;> simp_all [fanEvents, pumpEvents, fanTarget]

theorem emitted_checkParameter (r : Sensors) (s : State) :
    emitted s (checkParameter r s) =
      fanEvents (fanArg r s) s ++ (pumpEvents (pumpArg r s) s ++
        [.digitalWrite LED (decide (getPhotoCell r.photo < s.lightLED))]) := by
  unfold emitted
  rw [checkParameter_eq]
  simp

theorem analogWrites_append (pin : Int) (xs ys : List Event) :
    analogWrites pin (xs ++ ys) = analogWrites pin xs ++ analogWrites pin ys := by
  simp [analogWrites]

theorem digitalWrites_append (pin : Int) (xs ys : List Event) :
    digitalWrites pin (xs ++ ys) = digitalWrites pin xs ++ digitalWrites pin ys := by
  simp [digitalWrites]

theorem analogWrites_Fan_fanEvents (value : Int) (s : State) :
    analogWrites Fan (fanEvents value s) =
      if value ≠ 0 then (if s.START = 0 then [200] else []) ++ [fanTarget value s] else [0] := by
  unfold fanEvents analogWrites
  split_ifs <;> simp

theorem analogWrites_Fan_pumpEvents (value : Int) (s : State) :
    analogWrites Fan (pumpEvents value s) = [] := by
  unfold pumpEvents analogWrites
  split_ifs <;> simp [Fan, Pump]

theorem analogWrites_Pump_fanEvents (value : Int) (s : State) :
    analogWrites Pump (fanEvents value s) = [] := by
  unfold fanEvents analogWrites
  split_ifs <;> simp [Fan, Pump]

theorem analogWrites_Pump_pumpEvents (value : Int) (s : State) :
    analogWrites Pump (pumpEvents value s) =
      [if value ≠ 0 then wrapInt (value + s.speedPump) else 0] := by
  unfold pumpEvents analogWrites
  split_ifs <;> simp

theorem digitalWrites_fanEvents (pin value : Int) (s : State) :
    digitalWrites pin (fanEvents value s) = [] := by
  unfold fanEvents digitalWrites
  split_ifs <;> simp

theorem digitalWrites_pumpEvents (pin value : Int) (s : State) :
    digitalWrites pin (pumpEvents value s) = [] := by
  unfold pumpEvents digitalWrites
  split_ifs <;> simp

/-- The fan commands of one control cycle. -/
theorem checkParameter_fanWrites (r : Sensors) (s : State) :
    analogWrites Fan (emitted s (checkParameter r s)) =
      if fanArg r s ≠ 0 then (if s.START = 0 then [200] else []) ++ [fanTarget (fanArg r s) s]
      else [0] := by
  rw [emitted_checkParameter]
  simp [analogWrites_append, analogWrites_Fan_fanEvents, analogWrites_Fan_pumpEvents]
  simp [analogWrites]

/-- The pump commands of one control cycle. -/
theorem checkParameter_pumpWrites (r : Sensors) (s : State) :
    analogWrites Pump (emitted s (checkParameter r s)) =
      [if pumpArg r s ≠ 0 then wrapInt (pumpArg r s + s.speedPump) else 0] := by
  rw [emitted_checkParameter]
  simp [analogWrites_append, analogWrites_Pump_fanEvents, analogWrites_Pump_pumpEvents]
  simp [analogWrites]

/-- The light commands of one control cycle. -/
theorem checkParameter_ledWrites (r : Sensors) (s : State) :
    digitalWrites LED (emitted s (checkParameter r s)) =
      [decide (getPhotoCell r.photo < s.lightLED)] := by
  rw [emitted_checkParameter]
  simp [digitalWrites_append, digitalWrites_fanEvents, digitalWrites_pumpEvents]
  simp [digitalWrites]

theorem fanTarget_eq (value : Int) (s : State) :
    fanTarget value s = wrapInt (value - s.Temp + 10 + s.speedFan) := by
  unfold fanTarget wrapInt
  omega

theorem le_truncate_of_lt (n : Int) (x : ℚ) (h : (n : ℚ) < x) : n ≤ truncate x := by
  have hd : (0 : ℚ) < x.den := by exact_mod_cast x.den_pos
  have hx := Rat.num_div_den x
  rw [← hx, lt_div_iff₀ hd] at h
  have h1 : n * (x.den : Int) < x.num := by exact_mod_cast h
  have hd2 : (0 : Int) < x.den := by exact_mod_cast x.den_pos
  have h2 := Int.lt_tdiv_add_one_mul_self x.num hd2
  have h3 : n * (x.den : Int) < (x.num.tdiv x.den + 1) * x.den := lt_trans h1 h2
  have h4 : n < x.num.tdiv x.den + 1 := lt_of_mul_lt_mul_right h3 (le_of_lt hd2)
  unfold truncate
  omega

/-! ## Control laws -/

/-- C1, the pump law as the code computes it: when `M + pumpBaseOffset` lies in
the PWM range, one control cycle commands the pump exactly once, with
`M + pumpBaseOffset` if `M < moistureThreshold` and `M` is not 0, and with 0
otherwise, and records the same value in `lcdParametr.speed_pump`; nothing of
the earlier state but the two settings enters. A reading `M = 0` below the
threshold therefore gives 0, not `pumpBaseOffset`. -/
theorem pump_command_law (r : Sensors) (s : State)
    (h0 : 0 ≤ getMois r.mois + s.speedPump) (h1 : getMois r.mois + s.speedPump ≤ PWM_MAX) :
    analogWrites Pump (emitted s (checkParameter r s)) =
        [if getMois r.mois < s.Moisture ∧ getMois r.mois ≠ 0
          then getMois r.mois + s.speedPump else 0] ∧
      (checkParameter r s).lcdParametr.speed_pump =
        (if getMois r.mois < s.Moisture ∧ getMois r.mois ≠ 0
          then getMois r.mois + s.speedPump else 0) := by
  have hw : wrapInt (getMois r.mois + s.speedPump) = getMois r.mois + s.speedPump := by
    unfold PWM_MAX at h1
    unfold wrapInt
    omega
  rw [checkParameter_pumpWrites, checkParameter_eq]
  unfold pumpArg
  by_cases hlt : getMois r.mois < s.Moisture <;> by_cases hz : getMois r.mois = 0 <;>
    simp [hlt, hz, hw]

/-- C1 at the failing input: moisture 0 percent is below the threshold 40 and
`0 + 5` is a valid PWM value, yet the pump command is 0. -/
theorem pump_command_law_witness :
    (0 ≤ getMois dryReading.mois + dryState.speedPump ∧
      getMois dryReading.mois + dryState.speedPump ≤ PWM_MAX) ∧
    (analogWrites Pump (emitted dryState (checkParameter dryReading dryState)) =
        [if getMois dryReading.mois < dryState.Moisture ∧ getMois dryReading.mois ≠ 0
          then getMois dryReading.mois + dryState.speedPump else 0] ∧
      (checkParameter dryReading dryState).lcdParametr.speed_pump =
        (if getMois dryReading.mois < dryState.Moisture ∧ getMois dryReading.mois ≠ 0
          then getMois dryReading.mois + dryState.speedPump else 0)) :=
  ⟨⟨by decide, by decide⟩, pump_command_law dryReading dryState (by decide) (by decide)⟩

/-- C2, the fan on/off law as the code computes it: for a reading that fits an
`int`, a base offset that is not negative and a speed sum that does not
overflow, the last fan command of a control cycle is 0 exactly when
`T <= tempThreshold` or the reading converts to the integer 0. A reading
strictly between -1 and 1 above a negative threshold therefore stops the fan. -/
theorem fan_off_iff (r : Sensors) (s : State)
    (hoff : 0 ≤ s.speedFan)
    (hlo : INT_MIN ≤ truncate r.cel) (hhi : truncate r.cel ≤ INT_MAX)
    (hsum : truncate r.cel - s.Temp + 10 + s.speedFan ≤ INT_MAX) :
    (analogWrites Fan (emitted s (checkParameter r s))).getLast? = some 0 ↔
      (r.cel ≤ (s.Temp : ℚ) ∨ floatToInt r.cel = 0) := by
  have hf : floatToInt r.cel = truncate r.cel := wrapInt_of_range _ hlo hhi
  rw [checkParameter_fanWrites]
  unfold fanArg
  by_cases hT : r.cel > (s.Temp : ℚ)
  · have hge : s.Temp ≤ truncate r.cel := le_truncate_of_lt _ _ hT
    by_cases hz : floatToInt r.cel = 0
    · simp [hT, hz]
    · have htgt : fanTarget (floatToInt r.cel) s ≠ 0 := by
        rw [fanTarget_eq, hf]
        unfold INT_MAX at hsum
        unfold wrapInt
        omega
      have hnle : ¬ r.cel ≤ (s.Temp : ℚ) := not_le.mpr hT
      simp [hT, hz, hnle, htgt]
  · have hle : r.cel ≤ (s.Temp : ℚ) := not_lt.mp hT
    simp [hT, hle]

/-- C2 at the failing input: the reading 0 is above the threshold -5, yet the
fan command is 0. -/
theorem fan_off_iff_witness :
    (0 ≤ freezingState.speedFan ∧ INT_MIN ≤ truncate freezingReading.cel ∧
      truncate freezingReading.cel ≤ INT_MAX ∧
      truncate freezingReading.cel - freezingState.Temp + 10 + freezingState.speedFan ≤ INT_MAX) ∧
    ((analogWrites Fan (emitted freezingState
        (checkParameter freezingReading freezingState))).getLast? = some 0 ↔
      (freezingReading.cel ≤ (freezingState.Temp : ℚ) ∨ floatToInt freezingReading.cel = 0)) :=
  ⟨⟨by decide, by decide, by decide, by decide⟩,
    fan_off_iff freezingReading freezingState (by decide) (by decide) (by decide) (by decide)⟩

/-- C3 fails as stated: with fan base offset 1000 and a reading of 30 degrees
over the threshold 25, the cycle commands 1015 to the fan and records 1015 as
the fan speed, outside 0..255. -/
theorem cycle_outputs_not_clamped :
    analogWrites Fan (emitted bigOffsetState (checkParameter hotReading bigOffsetState)) =
        [200, 1015] ∧
      (checkParameter hotReading bigOffsetState).lcdParametr.speed_fan = 1015 ∧
      ¬ (∀ v ∈ analogWrites Fan (emitted bigOffsetState
          (checkParameter hotReading bigOffsetState)), 0 ≤ v ∧ v ≤ PWM_MAX) := by
  decide

/-- C3 amended: the code does not clamp. When the sums it computes,
`(trunc T - tempThreshold + 10) + fanBaseOffset` for a running fan and
`M + pumpBaseOffset` for a running pump, lie in 0..255, every value a control
cycle commands to the fan and to the pump lies in 0..255, and so do the
recorded pump speed and, when the cycle sets it, the recorded fan speed. -/
theorem cycle_outputs_within_pwm (r : Sensors) (s : State)
    (hfan : r.cel > (s.Temp : ℚ) → floatToInt r.cel ≠ 0 →
      0 ≤ floatToInt r.cel - s.Temp + 10 + s.speedFan ∧
        floatToInt r.cel - s.Temp + 10 + s.speedFan ≤ PWM_MAX)
    (hpump : getMois r.mois < s.Moisture → getMois r.mois ≠ 0 →
      0 ≤ getMois r.mois + s.speedPump ∧ getMois r.mois + s.speedPump ≤ PWM_MAX) :
    (∀ v ∈ analogWrites Fan (emitted s (checkParameter r s)), 0 ≤ v ∧ v ≤ PWM_MAX) ∧
    (∀ v ∈ analogWrites Pump (emitted s (checkParameter r s)), 0 ≤ v ∧ v ≤ PWM_MAX) ∧
    (0 ≤ (checkParameter r s).lcdParametr.speed_pump ∧
      (checkParameter r s).lcdParametr.speed_pump ≤ PWM_MAX) ∧
    ((r.cel ≤ (s.Temp : ℚ) ∨ floatToInt r.cel ≠ 0) →
      0 ≤ (checkParameter r s).lcdParametr.speed_fan ∧
        (checkParameter r s).lcdParametr.speed_fan ≤ PWM_MAX) := by
  simp only [PWM_MAX] at hfan hpump ⊢
  have hF : r.cel > (s.Temp : ℚ) → floatToInt r.cel ≠ 0 →
      0 ≤ fanTarget (floatToInt r.cel) s ∧ fanTarget (floatToInt r.cel) s ≤ 255 := by
    intro a b
    have h := hfan a b
    rw [fanTarget_eq]
    unfold wrapInt
    omega
  have hP : getMois r.mois < s.Moisture → getMois r.mois ≠ 0 →
      0 ≤ wrapInt (getMois r.mois + s.speedPump) ∧
        wrapInt (getMois r.mois + s.speedPump) ≤ 255 := by
    intro a b
    have h := hpump a b
    unfold wrapInt
    omega
  rw [checkParameter_fanWrites, checkParameter_pumpWrites, checkParameter_eq]
  unfold fanArg pumpArg
  refine ⟨?_, ?_, ?_, ?_⟩
  · intro v hv
    by_cases hT : r.cel > (s.Temp : ℚ)
    · by_cases hz : floatToInt r.cel = 0
      · simp [hT, hz] at hv
        subst hv
        simp
      · by_cases hS : s.START = 0
        · simp [hT, hz, hS] at hv
          rcases hv with hv | hv
          · subst hv
            simp
          · subst hv
            exact hF hT hz
        · simp [hT, hz, hS] at hv
          subst hv
          exact hF hT hz
    · simp [hT] at hv
      subst hv
      simp
  · intro v hv
    by_cases hlt : getMois r.mois < s.Moisture
    · by_cases hz : getMois r.mois = 0
      · simp [hlt, hz] at hv
        subst hv
        simp
      · simp [hlt, hz] at hv
        subst hv
        exact hP hlt hz
    · simp [hlt] at hv
      subst hv
      simp
  · by_cases hlt : getMois r.mois < s.Moisture
    · by_cases hz : getMois r.mois = 0
      · simp [hlt, hz]
      · simpa [hlt, hz] using hP hlt hz
    · simp [hlt]
  · intro h
    by_cases hT : r.cel > (s.Temp : ℚ)
    · by_cases hz : floatToInt r.cel = 0
      · rcases h with h | h
        · exact absurd hT (not_lt.mpr h)
        · exact absurd hz h
      · simpa [hT, hz] using hF hT hz
    · simp [hT]

/-- C3 amended, at a reading of 30 degrees, 20 percent moisture with thresholds
25 and 40 and no offsets: the fan gets 200 then 15, the pump 20. -/
theorem cycle_outputs_within_pwm_witness :
    ((hotReading.cel > (fanOffState.Temp : ℚ) → floatToInt hotReading.cel ≠ 0 →
      0 ≤ floatToInt hotReading.cel - fanOffState.Temp + 10 + fanOffState.speedFan ∧
        floatToInt hotReading.cel - fanOffState.Temp + 10 + fanOffState.speedFan ≤ PWM_MAX) ∧
     (getMois hotReading.mois < fanOffState.Moisture → getMois hotReading.mois ≠ 0 →
      0 ≤ getMois hotReading.mois + fanOffState.speedPump ∧
        getMois hotReading.mois + fanOffState.speedPump ≤ PWM_MAX)) ∧
    ((∀ v ∈ analogWrites Fan (emitted fanOffState (checkParameter hotReading fanOffState)),
        0 ≤ v ∧ v ≤ PWM_MAX) ∧
    (∀ v ∈ analogWrites Pump (emitted fanOffState (checkParameter hotReading fanOffState)),
        0 ≤ v ∧ v ≤ PWM_MAX) ∧
    (0 ≤ (checkParameter hotReading fanOffState).lcdParametr.speed_pump ∧
      (checkParameter hotReading fanOffState).lcdParametr.speed_pump ≤ PWM_MAX) ∧
    ((hotReading.cel ≤ (fanOffState.Temp : ℚ) ∨ floatToInt hotReading.cel ≠ 0) →
      0 ≤ (checkParameter hotReading fanOffState).lcdParametr.speed_fan ∧
        (checkParameter hotReading fanOffState).lcdParametr.speed_fan ≤ PWM_MAX)) :=
  ⟨⟨by decide, by decide⟩,
    cycle_outputs_within_pwm hotReading fanOffState (by decide) (by decide)⟩

/-- C4 fails as stated: the priming pulse is the duty value 200, not the
maximum PWM output 255. With the fan off, 30 degrees over the threshold 25
gives the fan commands 200 and then 15. -/
theorem fan_priming_is_not_full_power :
    analogWrites Fan (emitted fanOffState (checkParameter hotReading fanOffState)) = [200, 15] ∧
      (analogWrites Fan (emitted fanOffState (checkParameter hotReading fanOffState))).head? ≠
        some PWM_MAX := by
  decide

/-- C4 amended: in a control cycle with `temperature > tempThreshold` whose
reading does not convert to the integer 0, if `START = 0` the cycle begins
with the fan command 200, a delay of 2000 ms and then the fan command
`(trunc T - tempThreshold + 10) + fanBaseOffset` (16 bit), these two being
the only fan commands, and `START` is 1 afterwards; if `START` is not 0 the
only fan command is that target speed and `START` is 1 afterwards. -/
theorem fan_priming_and_latch (r : Sensors) (s : State)
    (hT : r.cel > (s.Temp : ℚ)) (hv : floatToInt r.cel ≠ 0) :
    (s.START = 0 →
      (emitted s (checkParameter r s)).take 3 =
          [.analogWrite Fan 200, .delay 2000,
            .analogWrite Fan (wrapInt (floatToInt r.cel - s.Temp + 10 + s.speedFan))] ∧
        analogWrites Fan (emitted s (checkParameter r s)) =
          [200, wrapInt (floatToInt r.cel - s.Temp + 10 + s.speedFan)] ∧
        (checkParameter r s).START = 1) ∧
    (s.START ≠ 0 →
      analogWrites Fan (emitted s (checkParameter r s)) =
          [wrapInt (floatToInt r.cel - s.Temp + 10 + s.speedFan)] ∧
        (checkParameter r s).START = 1) := by
  have hA : fanArg r s = floatToInt r.cel := by
    unfold fanArg
    simp [hT]
  have hA0 : fanArg r s ≠ 0 := by
    rw [hA]
    exact hv
  constructor
  · intro hS
    refine ⟨?_, ?_, ?_⟩
    · rw [emitted_checkParameter, hA]
      simp [fanEvents, hv, hS, fanTarget_eq]
    · rw [checkParameter_fanWrites, hA]
      simp [hv, hS, fanTarget_eq]
    · rw [checkParameter_eq]
      simp [hA0]
  · intro hS
    refine ⟨?_, ?_⟩
    · rw [checkParameter_fanWrites, hA]
      simp [hv, hS, fanTarget_eq]
    · rw [checkParameter_eq]
      simp [hA0]

/-- C4 amended, at 30 degrees over the threshold 25 with the fan off. -/
theorem fan_priming_and_latch_witness :
    (hotReading.cel > (fanOffState.Temp : ℚ) ∧ floatToInt hotReading.cel ≠ 0) ∧
    ((fanOffState.START = 0 →
      (emitted fanOffState (checkParameter hotReading fanOffState)).take 3 =
          [.analogWrite Fan 200, .delay 2000,
            .analogWrite Fan (wrapInt (floatToInt hotReading.cel - fanOffState.Temp + 10 +
              fanOffState.speedFan))] ∧
        analogWrites Fan (emitted fanOffState (checkParameter hotReading fanOffState)) =
          [200, wrapInt (floatToInt hotReading.cel - fanOffState.Temp + 10 +
            fanOffState.speedFan)] ∧
        (checkParameter hotReading fanOffState).START = 1) ∧
    (fanOffState.START ≠ 0 →
      analogWrites Fan (emitted fanOffState (checkParameter hotReading fanOffState)) =
          [wrapInt (floatToInt hotReading.cel - fanOffState.Temp + 10 + fanOffState.speedFan)] ∧
        (checkParameter hotReading fanOffState).START = 1)) :=
  ⟨⟨by decide, by decide⟩, fan_priming_and_latch hotReading fanOffState (by decide) (by decide)⟩

/-- C5, the light law: for every reading and every earlier state, one control
cycle writes the light output exactly once, and the level written is HIGH if
and only if the light percentage is below `lightThreshold`. -/
theorem light_on_iff (r : Sensors) (s : State) :
    digitalWrites LED (emitted s (checkParameter r s)) =
        [decide (getPhotoCell r.photo < s.lightLED)] ∧
      ((digitalWrites LED (emitted s (checkParameter r s))).getLast? = some true ↔
        getPhotoCell r.photo < s.lightLED) := by
  rw [checkParameter_ledWrites]
  simp

/-! ## Persistent configuration -/

theorem wrapInt_idem (x : Int) : wrapInt (wrapInt x) = wrapInt x := by
  unfold wrapInt
  omega

theorem EEPROM_get_put_same (address : Nat) (v : Int) (mem : Eeprom)
    (h0 : INT_MIN ≤ v) (h1 : v ≤ INT_MAX) :
    EEPROM_get address (EEPROM_put address v mem) = v := by
  unfold INT_MIN at h0
  unfold INT_MAX at h1
  unfold EEPROM_get EEPROM_put wrapInt
  simp
  omega

theorem EEPROM_get_range (address : Nat) (mem : Eeprom) :
    wrapInt (EEPROM_get address mem) = EEPROM_get address mem := by
  unfold EEPROM_get
  exact wrapInt_idem _

theorem cached_updateSystem (g : Field) (s : State) :
    g.cached (updateSystem s) = EEPROM_get g.address s.eeprom := by
  cases g <;> (rw [Field.cached, Field.address]; rfl)

theorem cached_setup (g : Field) (s : State) :
    g.cached (setup s) = EEPROM_get g.address s.eeprom := by
  cases g <;> (rw [Field.cached, Field.address]; rfl)

/-- C6, the configuration round trip: for each of the five settings and every
value `v` of the 16 bit `int` range, minimum and maximum included, after
`EEPROM.put` of `v` at the address of the setting, `updateSystem` and `setup`
both load `v` into the variable caching that setting, whatever the EEPROM and
the variables held before. -/
theorem config_round_trip (f : Field) (v : Int) (s : State)
    (h0 : INT_MIN ≤ v) (h1 : v ≤ INT_MAX) :
    f.cached (updateSystem { s with eeprom := EEPROM_put f.address v s.eeprom }) = v ∧
      f.cached (setup { s with eeprom := EEPROM_put f.address v s.eeprom }) = v := by
  rw [cached_updateSystem, cached_setup]
  exact ⟨EEPROM_get_put_same f.address v s.eeprom h0 h1,
    EEPROM_get_put_same f.address v s.eeprom h0 h1⟩

/-- C6 at the smallest `int`, saved as the moisture threshold on an erased EEPROM. -/
theorem config_round_trip_witness :
    (INT_MIN ≤ INT_MIN ∧ INT_MIN ≤ INT_MAX) ∧
    (Field.moistureThreshold.cached (updateSystem { State.init with
        eeprom := EEPROM_put Field.moistureThreshold.address INT_MIN State.init.eeprom }) =
          INT_MIN ∧
      Field.moistureThreshold.cached (setup { State.init with
        eeprom := EEPROM_put Field.moistureThreshold.address INT_MIN State.init.eeprom }) =
          INT_MIN) :=
  ⟨⟨by decide, by decide⟩,
    config_round_trip Field.moistureThreshold INT_MIN State.init (by decide) (by decide)⟩

/-! ## Menu -/

theorem menuRun_cons (k : Key) (keys : List Key) (c : Ctl) :
    menuRun (k :: keys) c = menuRun keys (menuStep k c) := rfl

theorem menuRun_append (xs ys : List Key) (c : Ctl) :
    menuRun (xs ++ ys) c = menuRun ys (menuRun xs c) := by
  simp [menuRun, List.foldl_append]

/-- The working value after one pass of the `setValue` loop. -/
theorem setValueStep_continue (address : Nat) (pin : Int) (k : Key) (value : Int) (s : State)
    (hk : k ≠ .btnSELECT) :
    ∃ s1, setValueStep address pin k value s =
        .editing address pin
          (if k = .btnUP then wrapInt (value + 1)
            else if k = .btnDOWN then wrapInt (value - 1) else value) s1 ∧
      s1.eeprom = s.eeprom := by
  refine ⟨analogWrite pin (if k = .btnUP then wrapInt (value + 1)
            else if k = .btnDOWN then wrapInt (value - 1) else value)
      (emits [.lcdSetCursor 0 1, .lcdPrintInt (if k = .btnUP then wrapInt (value + 1)
            else if k = .btnDOWN then wrapInt (value - 1) else value), .lcdPrint "  "]
        { getKey s with key := k }), ?_, rfl⟩
  unfold setValueStep
  simp only [analogWrite, emit, emits, getKey, delay]
  rw [if_pos hk]

/-- The pass of the `setValue` loop on Select. -/
theorem setValueStep_select (address : Nat) (pin : Int) (value : Int) (s : State) :
    setValueStep address pin .btnSELECT value s =
      .idle { emits [.lcdClear, .lcdPrint "Saved!", .delay 1200]
        (updateSystem { analogWrite pin value
          (emits [.lcdSetCursor 0 1, .lcdPrintInt value, .lcdPrint "  "]
            { getKey s with key := .btnSELECT }) with
          eeprom := EEPROM_put address value s.eeprom }) with key := .btnLEFT } := by
  unfold setValueStep afterRunMenu displayMenuTest setValueSave
  simp [analogWrite, emit, emits, getKey, delay, updateSystem]

theorem setValueStep_select_idle (address : Nat) (pin : Int) (value : Int) (s : State) :
    (setValueStep address pin .btnSELECT value s).isIdle = true := by
  rw [setValueStep_select]
  rfl

theorem setValueStep_select_eeprom (address : Nat) (pin : Int) (value : Int) (s : State) :
    (setValueStep address pin .btnSELECT value s).state.eeprom =
      EEPROM_put address value s.eeprom := by
  rw [setValueStep_select]
  rfl

theorem setValueStep_select_cached (address : Nat) (pin : Int) (value : Int) (s : State)
    (g : Field) :
    g.cached (setValueStep address pin .btnSELECT value s).state =
      EEPROM_get g.address (EEPROM_put address value s.eeprom) := by
  rw [setValueStep_select]
  cases g <;> (rw [Field.cached, Field.address]; rfl)

/-- The `setValue` loop on buttons without a Select: the working value moves by
the number of Up minus the number of Down presses, in 16 bit arithmetic. -/
theorem editing_run (address : Nat) (pin : Int) (pre : List Key) :
    ∀ (value : Int) (s : State), .btnSELECT ∉ pre → wrapInt value = value →
      ∃ s1, menuRun pre (.editing address pin value s) =
          .editing address pin
            (wrapInt (value + (pre.count .btnUP : Int) - (pre.count .btnDOWN : Int))) s1 ∧
        s1.eeprom = s.eeprom := by
  induction pre with
  | nil =>
    intro value s _ hv
    refine ⟨s, ?_, rfl⟩
    simp [menuRun, hv]
  | cons k ks ih =>
    intro value s hsel hv
    have hk : k ≠ .btnSELECT := by
      intro h
      exact hsel (by simp [h])
    have hks : .btnSELECT ∉ ks := by
      intro h
      exact hsel (by simp [h])
    obtain ⟨s1, hstep, he1⟩ := setValueStep_continue address pin k value s hk
    rw [menuRun_cons]
    show ∃ s1, menuRun ks (setValueStep address pin k value s) = _ ∧ _
    rw [hstep]
    have hv1 : wrapInt (if k = .btnUP then wrapInt (value + 1)
        else if k = .btnDOWN then wrapInt (value - 1) else value) =
        (if k = .btnUP then wrapInt (value + 1)
        else if k = .btnDOWN then wrapInt (value - 1) else value) := by
      split_ifs
      · exact wrapInt_idem _
      · exact wrapInt_idem _
      · exact hv
    obtain ⟨s2, hrun, he2⟩ := ih _ s1 hks hv1
    refine ⟨s2, ?_, he2.trans he1⟩
    rw [hrun]
    congr 1
    cases k <;> simp [List.count_cons] at hk ⊢ <;> (unfold wrapInt; omega)

/-- Select in the menu on the entry of a setting starts `setValue` on the
address of that setting, with the stored value as working value. -/
theorem select_starts_editing (f : Field) (s : State) (hcur : s.i = f.menuIndex) :
    ∃ s1, menuStep .btnSELECT (.browsing s) =
        .editing f.address f.pin (EEPROM_get f.address s.eeprom) s1 ∧
      s1.eeprom = s.eeprom := by
  refine ⟨emits [.lcdClear, .lcdPrint f.title] { getKey s with key := .btnSELECT }, ?_, rfl⟩
  cases f <;>
    simp [Field.menuIndex] at hcur <;>
    simp [menuStep, displayMenuStep, runMenu, getKey, delay, emit, hcur, setTemp,
      setPump, setCell, setFan, setMoisture, setValue, Field.address, Field.pin, Field.title]

/-- C7, edit and commit: with the cursor on the entry of a setting (0 Temp,
1 Pump, 2 Light, 3 Fan, 4 Moisture), Select starts the edit of that setting
with the stored value as working value; after any buttons without a Select
followed by Select, the machine is idle, the EEPROM is the old one with the
stored value plus Ups minus Downs (a value assumed inside the `int` range, no
other clamp) put at the address of the setting, reading that address gives this
value, and each of the five cached settings equals what the EEPROM stores for
it; Left, Right and None leave the working value as it is and stay in the edit. -/
theorem edit_and_commit (f : Field) (s : State) (pre : List Key)
    (hcur : s.i = f.menuIndex) (hpre : .btnSELECT ∉ pre)
    (hlo : INT_MIN ≤
      EEPROM_get f.address s.eeprom + (pre.count .btnUP : Int) - (pre.count .btnDOWN : Int))
    (hhi : EEPROM_get f.address s.eeprom + (pre.count .btnUP : Int) - (pre.count .btnDOWN : Int)
      ≤ INT_MAX) :
    (menuStep .btnSELECT (.browsing s)).isEditing = true ∧
    (menuRun (pre ++ [.btnSELECT]) (menuStep .btnSELECT (.browsing s))).isIdle = true ∧
    (menuRun (pre ++ [.btnSELECT]) (menuStep .btnSELECT (.browsing s))).state.eeprom =
      EEPROM_put f.address
        (EEPROM_get f.address s.eeprom + (pre.count .btnUP : Int) - (pre.count .btnDOWN : Int))
        s.eeprom ∧
    EEPROM_get f.address
        (menuRun (pre ++ [.btnSELECT]) (menuStep .btnSELECT (.browsing s))).state.eeprom =
      EEPROM_get f.address s.eeprom + (pre.count .btnUP : Int) - (pre.count .btnDOWN : Int) ∧
    (∀ g : Field,
      g.cached (menuRun (pre ++ [.btnSELECT]) (menuStep .btnSELECT (.browsing s))).state =
        EEPROM_get g.address
          (menuRun (pre ++ [.btnSELECT]) (menuStep .btnSELECT (.browsing s))).state.eeprom) ∧
    (∀ (k : Key) (address : Nat) (pin value : Int) (s0 : State),
      k = .btnLEFT ∨ k = .btnRIGHT ∨ k = .btnNONE →
        ∃ s1, menuStep k (.editing address pin value s0) = .editing address pin value s1) := by
  obtain ⟨s1, hstart, he1⟩ := select_starts_editing f s hcur
  obtain ⟨s2, hrun, he2⟩ :=
    editing_run f.address f.pin pre (EEPROM_get f.address s.eeprom) s1 hpre
      (EEPROM_get_range _ _)
  have hw := wrapInt_of_range _ hlo hhi
  have hfinal : menuRun (pre ++ [.btnSELECT]) (menuStep .btnSELECT (.browsing s)) =
      setValueStep f.address f.pin .btnSELECT
        (EEPROM_get f.address s.eeprom + (pre.count .btnUP : Int) - (pre.count .btnDOWN : Int))
        s2 := by
    rw [menuRun_append, hstart, hrun, hw]
    rfl
  rw [hfinal, setValueStep_select_idle, setValueStep_select_eeprom, he2, he1]
  refine ⟨by rw [hstart]; rfl, rfl, rfl, EEPROM_get_put_same _ _ _ hlo hhi, ?_, ?_⟩
  · intro g
    rw [setValueStep_select_cached, he2, he1]
  · intro k address pin value s0 hk
    have hk2 : k ≠ .btnSELECT := by
      rcases hk with h | h | h <;> simp [h]
    obtain ⟨s3, h3, _⟩ := setValueStep_continue address pin k value s0 hk2
    refine ⟨s3, ?_⟩
    show setValueStep address pin k value s0 = _
    rw [h3]
    rcases hk with h | h | h <;> simp [h]

/-- C7 on the Pump entry of an erased EEPROM (stored value -1): three Ups and
one Down among other buttons, then Select, store 1. -/
theorem edit_and_commit_witness :
    (pumpEntryState.i = Field.pumpBaseOffset.menuIndex ∧ Key.btnSELECT ∉ editKeys ∧
      INT_MIN ≤ EEPROM_get Field.pumpBaseOffset.address pumpEntryState.eeprom +
        (editKeys.count .btnUP : Int) - (editKeys.count .btnDOWN : Int) ∧
      EEPROM_get Field.pumpBaseOffset.address pumpEntryState.eeprom +
        (editKeys.count .btnUP : Int) - (editKeys.count .btnDOWN : Int) ≤ INT_MAX) ∧
    ((menuStep .btnSELECT (.browsing pumpEntryState)).isEditing = true ∧
    (menuRun (editKeys ++ [.btnSELECT])
      (menuStep .btnSELECT (.browsing pumpEntryState))).isIdle = true ∧
    (menuRun (editKeys ++ [.btnSELECT])
      (menuStep .btnSELECT (.browsing pumpEntryState))).state.eeprom =
      EEPROM_put Field.pumpBaseOffset.address
        (EEPROM_get Field.pumpBaseOffset.address pumpEntryState.eeprom +
          (editKeys.count .btnUP : Int) - (editKeys.count .btnDOWN : Int))
        pumpEntryState.eeprom ∧
    EEPROM_get Field.pumpBaseOffset.address
        (menuRun (editKeys ++ [.btnSELECT])
          (menuStep .btnSELECT (.browsing pumpEntryState))).state.eeprom =
      EEPROM_get Field.pumpBaseOffset.address pumpEntryState.eeprom +
        (editKeys.count .btnUP : Int) - (editKeys.count .btnDOWN : Int) ∧
    (∀ g : Field,
      g.cached (menuRun (editKeys ++ [.btnSELECT])
          (menuStep .btnSELECT (.browsing pumpEntryState))).state =
        EEPROM_get g.address
          (menuRun (editKeys ++ [.btnSELECT])
            (menuStep .btnSELECT (.browsing pumpEntryState))).state.eeprom) ∧
    (∀ (k : Key) (address : Nat) (pin value : Int) (s0 : State),
      k = .btnLEFT ∨ k = .btnRIGHT ∨ k = .btnNONE →
        ∃ s1, menuStep k (.editing address pin value s0) = .editing address pin value s1)) :=
  ⟨⟨by decide, by decide, by decide, by decide⟩,
    edit_and_commit Field.pumpBaseOffset pumpEntryState editKeys (by decide) (by decide)
      (by decide) (by decide)⟩

/-- Down while browsing: the cursor moves by one up to the entry 5. -/
theorem browse_down (s : State) :
    ∃ s1, menuStep .btnDOWN (.browsing s) = .browsing s1 ∧
      s1.i = (if s.i ≤ 4 then wrapInt (s.i + 1) else s.i) := by
  by_cases h : s.i ≤ 4
  · refine ⟨showMenu (wrapInt (s.i + 1)) { getKey s with key := .btnDOWN }, ?_, ?_⟩
    · simp [menuStep, displayMenuStep, getKey, delay, emit, h, displayMenuTest, showMenu, emits]
      split_ifs <;> simp
    · simp only [showMenu, emits, if_pos h]
      split_ifs <;> rfl
  · refine ⟨{ getKey s with key := .btnDOWN }, ?_, ?_⟩
    · simp [menuStep, displayMenuStep, getKey, delay, emit, h, displayMenuTest]
    · simp [getKey, delay, emit, h]

/-- Up while browsing: the cursor moves only when it is at most 4. -/
theorem browse_up (s : State) :
    ∃ s1, menuStep .btnUP (.browsing s) = .browsing s1 ∧
      s1.i = (if s.i ≤ 4 then wrapInt (s.i - 1) else s.i) := by
  by_cases h : s.i ≤ 4
  · refine ⟨showMenu (wrapInt (s.i - 1)) { getKey s with key := .btnUP }, ?_, ?_⟩
    · simp [menuStep, displayMenuStep, getKey, delay, emit, h, displayMenuTest, showMenu, emits]
      split_ifs <;> simp
    · simp only [showMenu, emits, if_pos h]
      split_ifs <;> rfl
  · refine ⟨{ getKey s with key := .btnUP }, ?_, ?_⟩
    · simp [menuStep, displayMenuStep, getKey, delay, emit, h, displayMenuTest]
    · simp [getKey, delay, emit, h]

/-- Entering the menu: browsing with the cursor on the first entry. -/
theorem loopKey_right (s : State) :
    ∃ s1, loopKey .btnRIGHT s = .browsing s1 ∧ s1.i = 0 := by
  refine ⟨showMenu 0 { getKey s with i := 0 }, ?_, ?_⟩
  · simp [loopKey, displayMenu]
  · simp [showMenu, emits]

/-- Buttons Up and Down only, with few enough Ups for the cursor not to pass the
smallest `int`: the menu stays in browsing and the cursor stays at most 5. -/
theorem browsing_run_le (keys : List Key) :
    ∀ s : State, (∀ k ∈ keys, k = .btnUP ∨ k = .btnDOWN) → s.i ≤ 5 →
      INT_MIN + (keys.count .btnUP : Int) ≤ s.i →
      ∃ s1, menuRun keys (.browsing s) = .browsing s1 ∧ s1.i ≤ 5 := by
  induction keys with
  | nil =>
    intro s _ h5 _
    exact ⟨s, rfl, h5⟩
  | cons k ks ih =>
    intro s hk h5 hlo
    have hks : ∀ k ∈ ks, k = .btnUP ∨ k = .btnDOWN := fun k hm => hk k (by simp [hm])
    unfold INT_MIN at hlo
    rw [menuRun_cons]
    rcases hk k (by simp) with h | h
    · subst h
      obtain ⟨s1, hstep, hi⟩ := browse_up s
      rw [hstep]
      simp only [List.count_cons_self, Nat.cast_add, Nat.cast_one] at hlo
      have hi2 : s1.i ≤ 5 ∧ INT_MIN + (ks.count .btnUP : Int) ≤ s1.i := by
        rw [hi]
        unfold INT_MIN
        split_ifs
        · unfold wrapInt
          omega
        · omega
      exact ih s1 hks hi2.1 hi2.2
    · subst h
      obtain ⟨s1, hstep, hi⟩ := browse_down s
      rw [hstep]
      have hc : (Key.btnDOWN :: ks).count .btnUP = ks.count .btnUP := by
        simp [List.count_cons]
      rw [hc] at hlo
      have hi2 : s1.i ≤ 5 ∧ INT_MIN + (ks.count .btnUP : Int) ≤ s1.i := by
        rw [hi]
        unfold INT_MIN
        split_ifs
        · unfold wrapInt
          omega
        · omega
      exact ih s1 hks hi2.1 hi2.2

/-- Ups only from a cursor of at most 4, as long as the smallest `int` is not
passed: the cursor goes down by one per Up. -/
theorem ups_run (n : Nat) :
    ∀ s : State, s.i ≤ 4 → INT_MIN ≤ s.i - (n : Int) →
      ∃ s1, menuRun (List.replicate n .btnUP) (.browsing s) = .browsing s1 ∧
        s1.i = s.i - (n : Int) := by
  induction n with
  | zero =>
    intro s _ _
    exact ⟨s, rfl, by simp⟩
  | succ n ih =>
    intro s h4 hlo
    unfold INT_MIN at hlo
    obtain ⟨s1, hstep, hi⟩ := browse_up s
    rw [List.replicate_succ, menuRun_cons, hstep]
    rw [if_pos h4] at hi
    have hi1 : s1.i = s.i - 1 := by
      rw [hi]
      unfold wrapInt
      push_cast at hlo
      omega
    obtain ⟨s2, hrun, hi2⟩ := ih s1 (by omega) (by unfold INT_MIN; push_cast at hlo; omega)
    refine ⟨s2, hrun, ?_⟩
    rw [hi2, hi1]
    push_cast
    omega

/-- C8 fails as stated on a 16 bit cursor: 32769 Ups after entering the menu
carry the cursor through the smallest `int` to 32767, above the last entry. -/
theorem cursor_wraps_above_last_entry :
    (menuRun (List.replicate 32769 .btnUP) (loopKey .btnRIGHT State.init)).cursor = 32767 ∧
      ¬ (menuRun (List.replicate 32769 .btnUP) (loopKey .btnRIGHT State.init)).cursor ≤ 5 := by
  obtain ⟨s0, h0, hi0⟩ := loopKey_right State.init
  obtain ⟨s1, h1, hi1⟩ := ups_run 32768 s0 (by omega) (by unfold INT_MIN; omega)
  obtain ⟨s2, h2, hi2⟩ := browse_up s1
  have hrun : menuRun (List.replicate 32769 .btnUP) (loopKey .btnRIGHT State.init) =
      .browsing s2 := by
    rw [show (32769 : Nat) = 32768 + 1 from rfl, List.replicate_succ', menuRun_append, h0, h1]
    exact h2
  have hc : s2.i = 32767 := by
    rw [hi2, hi1, hi0]
    decide
  rw [hrun]
  simp [Ctl.cursor, Ctl.state, hc]

/-- C8 amended: Right in the main loop enters the menu with the cursor at 0;
after any sequence of Up and Down buttons with at most 32768 Ups (so that the
16 bit cursor does not wrap), and after each of its initial segments, the
menu is still browsing and the cursor is at most 5; Down with the cursor at 5
leaves the cursor at 5, and Down at a cursor of at most 4 adds exactly 1. -/
theorem menu_cursor_upper_bound (s : State) (keys : List Key)
    (hkeys : ∀ k ∈ keys, k = .btnUP ∨ k = .btnDOWN) (hups : keys.count .btnUP ≤ 32768) :
    ((loopKey .btnRIGHT s).isBrowsing = true ∧ (loopKey .btnRIGHT s).cursor = 0) ∧
    (∀ n : Nat, (menuRun (keys.take n) (loopKey .btnRIGHT s)).isBrowsing = true ∧
      (menuRun (keys.take n) (loopKey .btnRIGHT s)).cursor ≤ 5) ∧
    (∀ s0 : State, s0.i = 5 →
      (menuStep .btnDOWN (.browsing s0)).isBrowsing = true ∧
        (menuStep .btnDOWN (.browsing s0)).cursor = 5) ∧
    (∀ s0 : State, INT_MIN ≤ s0.i → s0.i ≤ 4 →
      (menuStep .btnDOWN (.browsing s0)).isBrowsing = true ∧
        (menuStep .btnDOWN (.browsing s0)).cursor = s0.i + 1) := by
  obtain ⟨s1, h1, hi1⟩ := loopKey_right s
  refine ⟨?_, ?_, ?_, ?_⟩
  · rw [h1]
    exact ⟨rfl, hi1⟩
  · intro n
    have hsub : (keys.take n).Sublist keys := List.take_sublist n keys
    have hk : ∀ k ∈ keys.take n, k = .btnUP ∨ k = .btnDOWN :=
      fun k hm => hkeys k (hsub.subset hm)
    have hc : (keys.take n).count .btnUP ≤ keys.count .btnUP := hsub.count_le _
    obtain ⟨s2, h2, hi2⟩ := browsing_run_le (keys.take n) s1 hk (by omega)
      (by unfold INT_MIN; omega)
    rw [h1, h2]
    exact ⟨rfl, hi2⟩
  · intro s0 h5
    obtain ⟨s2, h2, hi2⟩ := browse_down s0
    rw [h2]
    refine ⟨rfl, ?_⟩
    show s2.i = 5
    rw [hi2, h5]
    rfl
  · intro s0 hlo h4
    obtain ⟨s2, h2, hi2⟩ := browse_down s0
    rw [h2]
    refine ⟨rfl, ?_⟩
    show s2.i = s0.i + 1
    rw [hi2, if_pos h4]
    unfold INT_MIN at hlo
    unfold wrapInt
    omega

/-- C8 amended, on six Downs and one Up after entering the menu. -/
theorem menu_cursor_upper_bound_witness :
    ((∀ k ∈ browseKeys, k = Key.btnUP ∨ k = Key.btnDOWN) ∧
      browseKeys.count .btnUP ≤ 32768) ∧
    (((loopKey .btnRIGHT State.init).isBrowsing = true ∧
      (loopKey .btnRIGHT State.init).cursor = 0) ∧
    (∀ n : Nat, (menuRun (browseKeys.take n) (loopKey .btnRIGHT State.init)).isBrowsing = true ∧
      (menuRun (browseKeys.take n) (loopKey .btnRIGHT State.init)).cursor ≤ 5) ∧
    (∀ s0 : State, s0.i = 5 →
      (menuStep .btnDOWN (.browsing s0)).isBrowsing = true ∧
        (menuStep .btnDOWN (.browsing s0)).cursor = 5) ∧
    (∀ s0 : State, INT_MIN ≤ s0.i → s0.i ≤ 4 →
      (menuStep .btnDOWN (.browsing s0)).isBrowsing = true ∧
        (menuStep .btnDOWN (.browsing s0)).cursor = s0.i + 1)) :=
  ⟨⟨by decide, by decide⟩,
    menu_cursor_upper_bound State.init browseKeys (by decide) (by decide)⟩

/-- C9, the Up transition as the code computes it: with the cursor on a menu
entry (0 to 5), Up keeps the menu browsing and moves the cursor to `c - 1`
only when `c` is at most 4; with the cursor on About (5) the guard `i <= 4`
of the Up branch fails and the cursor stays at 5. -/
theorem menu_up_transition (s : State) (h0 : 0 ≤ s.i) (h5 : s.i ≤ 5) :
    (menuStep .btnUP (.browsing s)).isBrowsing = true ∧
      (menuStep .btnUP (.browsing s)).cursor = (if s.i ≤ 4 then s.i - 1 else 5) := by
  obtain ⟨s1, h1, hi1⟩ := browse_up s
  rw [h1]
  refine ⟨rfl, ?_⟩
  show s1.i = _
  rw [hi1]
  split_ifs
  · unfold wrapInt
    omega
  · omega

/-- C9 at the failing input: Up with the cursor on About leaves the cursor at 5. -/
theorem menu_up_transition_witness :
    (0 ≤ aboutEntryState.i ∧ aboutEntryState.i ≤ 5) ∧
    ((menuStep .btnUP (.browsing aboutEntryState)).isBrowsing = true ∧
      (menuStep .btnUP (.browsing aboutEntryState)).cursor =
        (if aboutEntryState.i ≤ 4 then aboutEntryState.i - 1 else 5)) :=
  ⟨⟨by decide, by decide⟩, menu_up_transition aboutEntryState (by decide) (by decide)⟩

/-- C10 fails as stated: Select on the About entry does not return to
browsing, `displayMenu` ends and control is back in the main loop. -/
theorem about_select_leaves_menu :
    (menuStep .btnSELECT (.browsing aboutEntryState)).isBrowsing = false ∧
      (menuStep .btnSELECT (.browsing aboutEntryState)).isIdle = true := by
  decide

/-- C10 amended: Select while browsing with the cursor on About (5) waits for
the debounce, shows the two lines of the information page for 3000 ms and
leaves the menu (control back in the main loop, `key = btnLEFT`); the EEPROM,
the five cached settings and every other variable are unchanged. -/
theorem about_select_exits (s : State) (h : s.i = 5) :
    menuStep .btnSELECT (.browsing s) =
        .idle { s with
          key := .btnLEFT
          out := s.out ++ [.delay 250, .lcdClear, .lcdPrint "Plant Control Sys",
            .lcdSetCursor 0 1, .lcdPrint "By Your Name", .delay 3000] } ∧
      (menuStep .btnSELECT (.browsing s)).isIdle = true ∧
      (menuStep .btnSELECT (.browsing s)).state.eeprom = s.eeprom ∧
      (∀ g : Field, g.cached (menuStep .btnSELECT (.browsing s)).state = g.cached s) := by
  have hstep : menuStep .btnSELECT (.browsing s) =
      .idle { s with
        key := .btnLEFT
        out := s.out ++ [.delay 250, .lcdClear, .lcdPrint "Plant Control Sys",
          .lcdSetCursor 0 1, .lcdPrint "By Your Name", .delay 3000] } := by
    simp [menuStep, displayMenuStep, runMenu, getKey, delay, emit, h, afterRunMenu,
      displayMenuTest, about, emits]
  rw [hstep]
  refine ⟨rfl, rfl, rfl, ?_⟩
  intro g
  cases g <;> rfl

/-- C10 amended, with the cursor on About after power-on. -/
theorem about_select_exits_witness :
    aboutEntryState.i = 5 ∧
    (menuStep .btnSELECT (.browsing aboutEntryState) =
        .idle { aboutEntryState with
          key := .btnLEFT
          out := aboutEntryState.out ++ [.delay 250, .lcdClear, .lcdPrint "Plant Control Sys",
            .lcdSetCursor 0 1, .lcdPrint "By Your Name", .delay 3000] } ∧
      (menuStep .btnSELECT (.browsing aboutEntryState)).isIdle = true ∧
      (menuStep .btnSELECT (.browsing aboutEntryState)).state.eeprom = aboutEntryState.eeprom ∧
      (∀ g : Field, g.cached (menuStep .btnSELECT (.browsing aboutEntryState)).state =
        g.cached aboutEntryState)) :=
  ⟨by decide, about_select_exits aboutEntryState (by decide)⟩

/-! ## Buttons and sensors -/

/-- C11 fails as stated: the raw reading 0 lies below the lowest threshold and
decodes to Right, not to None. -/
theorem low_reading_is_right :
    read_LCD_buttons 0 = .btnRIGHT ∧ read_LCD_buttons 0 ≠ .btnNONE := by
  decide

/-- C11 amended: for every raw reading `r` in 0..1023, `read_LCD_buttons` is
fixed by the ascending thresholds 50, 250, 450, 650, 850: Right below 50, Up
from 50, Down from 250, Left from 450, Select from 650, and None from 850 on. -/
theorem button_decoding (r : Int) (h0 : 0 ≤ r) (h1 : r ≤ 1023) :
    (r < 50 → read_LCD_buttons r = .btnRIGHT) ∧
    (50 ≤ r → r < 250 → read_LCD_buttons r = .btnUP) ∧
    (250 ≤ r → r < 450 → read_LCD_buttons r = .btnDOWN) ∧
    (450 ≤ r → r < 650 → read_LCD_buttons r = .btnLEFT) ∧
    (650 ≤ r → r < 850 → read_LCD_buttons r = .btnSELECT) ∧
    (850 ≤ r → read_LCD_buttons r = .btnNONE) := by
  unfold read_LCD_buttons
  refine ⟨?_, ?_, ?_, ?_, ?_, ?_⟩
  · intro h
    rw [if_neg (by omega), if_pos h]
  · intro ha hb
    rw [if_neg (by omega), if_neg (by omega), if_pos hb]
  · intro ha hb
    rw [if_neg (by omega), if_neg (by omega), if_neg (by omega), if_pos hb]
  · intro ha hb
    rw [if_neg (by omega), if_neg (by omega), if_neg (by omega), if_neg (by omega), if_pos hb]
  · intro ha hb
    rw [if_neg (by omega), if_neg (by omega), if_neg (by omega), if_neg (by omega),
      if_neg (by omega), if_pos hb]
  · intro ha
    by_cases hk : r > 1000
    · rw [if_pos hk]
    · rw [if_neg hk, if_neg (by omega), if_neg (by omega), if_neg (by omega), if_neg (by omega),
        if_neg (by omega)]

/-- C11 amended, at the raw reading 700 (Select). -/
theorem button_decoding_witness :
    ((0 : Int) ≤ 700 ∧ (700 : Int) ≤ 1023) ∧
    (((700 : Int) < 50 → read_LCD_buttons 700 = .btnRIGHT) ∧
    ((50 : Int) ≤ 700 → (700 : Int) < 250 → read_LCD_buttons 700 = .btnUP) ∧
    ((250 : Int) ≤ 700 → (700 : Int) < 450 → read_LCD_buttons 700 = .btnDOWN) ∧
    ((450 : Int) ≤ 700 → (700 : Int) < 650 → read_LCD_buttons 700 = .btnLEFT) ∧
    ((650 : Int) ≤ 700 → (700 : Int) < 850 → read_LCD_buttons 700 = .btnSELECT) ∧
    ((850 : Int) ≤ 700 → read_LCD_buttons 700 = .btnNONE)) :=
  ⟨⟨by decide, by decide⟩, button_decoding 700 (by decide) (by decide)⟩

theorem getPhotoCell_eq (r : Int) (h0 : 0 ≤ r) (h1 : r ≤ 1023) :
    getPhotoCell r = r * 100 / 1023 := by
  unfold getPhotoCell map
  have h : (r - 0) * (100 - 0) = r * 100 := by ring
  rw [h, show (1023 : Int) - 0 = 1023 from rfl, Int.tdiv_eq_ediv (by omega) (by omega)]
  unfold wrapInt
  omega

theorem getMois_eq (r : Int) (h0 : 0 ≤ r) (h1 : r ≤ 1023) :
    getMois r = 100 - r * 100 / 1023 := by
  unfold getMois map
  have h : (r - 0) * (0 - 100) = -(r * 100) := by ring
  rw [h, show (1023 : Int) - 0 = 1023 from rfl, Int.neg_tdiv,
    Int.tdiv_eq_ediv (by omega) (by omega)]
  unfold wrapInt
  omega

/-- C12, sensor rescaling: for raw samples in 0..1023, `getMois` and
`getPhotoCell` lie in 0..100; `getPhotoCell` does not decrease and `getMois`
does not increase when the raw sample grows; `getPhotoCell` is 0 at 0 and 100
at 1023, `getMois` is 100 at 0 and 0 at 1023. -/
theorem sensor_rescaling (r1 r2 : Int) (h0 : 0 ≤ r1) (h12 : r1 ≤ r2) (h2 : r2 ≤ 1023) :
    (0 ≤ getMois r1 ∧ getMois r1 ≤ 100) ∧ (0 ≤ getPhotoCell r1 ∧ getPhotoCell r1 ≤ 100) ∧
    getPhotoCell r1 ≤ getPhotoCell r2 ∧ getMois r2 ≤ getMois r1 ∧
    getPhotoCell 0 = 0 ∧ getPhotoCell 1023 = 100 ∧ getMois 0 = 100 ∧ getMois 1023 = 0 := by
  rw [getPhotoCell_eq r1 h0 (by omega), getPhotoCell_eq r2 (by omega) h2,
    getMois_eq r1 h0 (by omega), getMois_eq r2 (by omega) h2]
  refine ⟨by omega, by omega, by omega, by omega, by decide, by decide, by decide, by decide⟩

/-- C12 at the raw samples 300 and 700. -/
theorem sensor_rescaling_witness :
    ((0 : Int) ≤ 300 ∧ (300 : Int) ≤ 700 ∧ (700 : Int) ≤ 1023) ∧
    ((0 ≤ getMois 300 ∧ getMois 300 ≤ 100) ∧ (0 ≤ getPhotoCell 300 ∧ getPhotoCell 300 ≤ 100) ∧
    getPhotoCell 300 ≤ getPhotoCell 700 ∧ getMois 700 ≤ getMois 300 ∧
    getPhotoCell 0 = 0 ∧ getPhotoCell 1023 = 100 ∧ getMois 0 = 100 ∧ getMois 1023 = 0) :=
  ⟨⟨by decide, by decide, by decide⟩, sensor_rescaling 300 700 (by decide) (by decide) (by decide)⟩

/-! ## Control cycle: frame, repetition and scenarios -/

theorem sameConfig_checkParameter (r : Sensors) (s : State) :
    sameConfig s (checkParameter r s) := by
  rw [checkParameter_eq]
  exact ⟨rfl, rfl, rfl, rfl, rfl, rfl⟩

theorem checkParameter_START (r : Sensors) (s : State) :
    (checkParameter r s).START = if fanArg r s ≠ 0 then 1 else 0 := by
  rw [checkParameter_eq]

theorem fanArg_congr (r : Sensors) (s s1 : State) (h : sameConfig s s1) :
    fanArg r s1 = fanArg r s := by
  unfold fanArg
  rw [h.1]

theorem pumpArg_congr (r : Sensors) (s s1 : State) (h : sameConfig s s1) :
    pumpArg r s1 = pumpArg r s := by
  unfold pumpArg
  rw [h.2.2.2.2.1]

theorem fanTarget_congr (value : Int) (s s1 : State) (h : sameConfig s s1) :
    fanTarget value s1 = fanTarget value s := by
  unfold fanTarget
  rw [h.1, h.2.1]

theorem pumpEvents_congr (value : Int) (s s1 : State) (h : sameConfig s s1) :
    pumpEvents value s1 = pumpEvents value s := by
  unfold pumpEvents
  rw [h.2.2.2.1]

/-- With the fan latch set, the fan events of a cycle and of its repetition. -/
theorem fanEvents_repeat (r : Sensors) (s : State) (hS : s.START ≠ 0) :
    fanEvents (fanArg r s) s =
        (if fanArg r s ≠ 0 then [.analogWrite Fan (fanTarget (fanArg r s) s)]
          else [.analogWrite Fan 0]) ∧
      fanEvents (fanArg r (checkParameter r s)) (checkParameter r s) =
        (if fanArg r s ≠ 0 then [.analogWrite Fan (fanTarget (fanArg r s) s)]
          else [.analogWrite Fan 0]) := by
  have hc := sameConfig_checkParameter r s
  rw [fanArg_congr r s _ hc]
  unfold fanEvents
  rw [fanTarget_congr _ s _ hc, checkParameter_START]
  by_cases hz : fanArg r s = 0
  · simp [hz]
  · simp [hz, hS]

/-- C13, idempotence: starting with the fan latch set (`START` not 0), a
second control cycle on the same reading emits exactly the events of the
first (the same fan and pump commands and the same light level), leaves the
record `lcdParametr` and `START` as the first cycle left them, and neither
cycle issues the priming pulse: no 2000 ms delay, one fan command each. -/
theorem control_cycle_idempotent (r : Sensors) (s : State) (hS : s.START ≠ 0) :
    emitted (checkParameter r s) (checkParameter r (checkParameter r s)) =
        emitted s (checkParameter r s) ∧
      (checkParameter r (checkParameter r s)).lcdParametr = (checkParameter r s).lcdParametr ∧
      (checkParameter r (checkParameter r s)).START = (checkParameter r s).START ∧
      Event.delay 2000 ∉ emitted s (checkParameter r s) ∧
      Event.delay 2000 ∉ emitted (checkParameter r s) (checkParameter r (checkParameter r s)) ∧
      (analogWrites Fan (emitted s (checkParameter r s))).length = 1 ∧
      (analogWrites Fan
        (emitted (checkParameter r s) (checkParameter r (checkParameter r s)))).length = 1 := by
  have hc := sameConfig_checkParameter r s
  obtain ⟨hf1, hf2⟩ := fanEvents_repeat r s hS
  have hem : emitted (checkParameter r s) (checkParameter r (checkParameter r s)) =
      emitted s (checkParameter r s) := by
    rw [emitted_checkParameter, emitted_checkParameter, hf2, hf1, pumpArg_congr r s _ hc,
      pumpEvents_congr _ s _ hc, hc.2.2.1]
  have hno : Event.delay 2000 ∉ emitted s (checkParameter r s) := by
    rw [emitted_checkParameter, hf1]
    unfold pumpEvents
    split_ifs <;> simp
  have hlen : (analogWrites Fan (emitted s (checkParameter r s))).length = 1 := by
    rw [emitted_checkParameter, hf1, analogWrites_append, analogWrites_append,
      analogWrites_Fan_pumpEvents]
    split_ifs <;> simp [analogWrites]
  refine ⟨hem, ?_, ?_, hno, by rw [hem]; exact hno, hlen, by rw [hem]; exact hlen⟩
  · rw [checkParameter_eq r (checkParameter r s), fanArg_congr r s _ hc,
      pumpArg_congr r s _ hc, fanTarget_congr _ s _ hc, hc.1, hc.2.2.2.1]
    rw [checkParameter_eq r s]
    by_cases hT : r.cel > (s.Temp : ℚ) <;> by_cases hz : floatToInt r.cel = 0 <;>
      simp [hT, hz]
  · rw [checkParameter_START, checkParameter_START, fanArg_congr r s _ hc]

/-- C13 at 30 degrees over the threshold 25 with the fan already running. -/
theorem control_cycle_idempotent_witness :
    fanOnState.START ≠ 0 ∧
    (emitted (checkParameter hotReading fanOnState)
        (checkParameter hotReading (checkParameter hotReading fanOnState)) =
        emitted fanOnState (checkParameter hotReading fanOnState) ∧
      (checkParameter hotReading (checkParameter hotReading fanOnState)).lcdParametr =
        (checkParameter hotReading fanOnState).lcdParametr ∧
      (checkParameter hotReading (checkParameter hotReading fanOnState)).START =
        (checkParameter hotReading fanOnState).START ∧
      Event.delay 2000 ∉ emitted fanOnState (checkParameter hotReading fanOnState) ∧
      Event.delay 2000 ∉ emitted (checkParameter hotReading fanOnState)
        (checkParameter hotReading (checkParameter hotReading fanOnState)) ∧
      (analogWrites Fan (emitted fanOnState (checkParameter hotReading fanOnState))).length = 1 ∧
      (analogWrites Fan (emitted (checkParameter hotReading fanOnState)
        (checkParameter hotReading (checkParameter hotReading fanOnState)))).length = 1) :=
  ⟨by decide, control_cycle_idempotent hotReading fanOnState (by decide)⟩

/-- C15, the hot, dry, dark scenario: with thresholds 25 / 40 / 30, no offsets
and the fan latch clear, a reading of 30 degrees, 20 percent moisture and
10 percent light makes one control cycle emit the priming pulse (fan 200 for
2000 ms), the fan speed 15, the pump speed 20 and the light on, in this
order and nothing else; afterwards `START` is 1 and the recorded speeds are
15 and 20. -/
theorem scenario_hot_dry_dark (r : Sensors) (s : State)
    (hc : r.cel = 30) (hm : getMois r.mois = 20) (hl : getPhotoCell r.photo = 10)
    (hT : s.Temp = 25) (hF : s.speedFan = 0) (hM : s.Moisture = 40) (hP : s.speedPump = 0)
    (hL : s.lightLED = 30) (hS : s.START = 0) :
    emitted s (checkParameter r s) =
        [.analogWrite Fan 200, .delay 2000, .analogWrite Fan 15, .analogWrite Pump 20,
          .digitalWrite LED true] ∧
      (checkParameter r s).START = 1 ∧
      (checkParameter r s).lcdParametr.speed_fan = 15 ∧
      (checkParameter r s).lcdParametr.speed_pump = 20 := by
  have hfi : floatToInt (30 : ℚ) = 30 := by decide
  have hgt : (30 : ℚ) > ((25 : Int) : ℚ) := by norm_num
  have hfa : fanArg r s = 30 := by
    unfold fanArg
    rw [hc, hT, if_pos hgt, hfi]
  have hpa : pumpArg r s = 20 := by
    unfold pumpArg
    rw [hm, hM]
    rfl
  have hft : fanTarget 30 s = 15 := by
    unfold fanTarget
    rw [hT, hF]
    decide
  refine ⟨?_, ?_, ?_, ?_⟩
  · rw [emitted_checkParameter, hfa, hpa, hl, hL]
    unfold fanEvents pumpEvents
    rw [hft, hS, hP]
    decide
  · rw [checkParameter_START, hfa]
    rfl
  · rw [checkParameter_eq]
    simp only [hc, hT, hfi, hft]
    rw [if_pos hgt]
    rfl
  · rw [checkParameter_eq]
    simp only [hpa, hP]
    decide

/-- C15 on the raw samples 819 (20 percent moisture) and 103 (10 percent light). -/
theorem scenario_hot_dry_dark_witness :
    (hotReading.cel = 30 ∧ getMois hotReading.mois = 20 ∧ getPhotoCell hotReading.photo = 10 ∧
      fanOffState.Temp = 25 ∧ fanOffState.speedFan = 0 ∧ fanOffState.Moisture = 40 ∧
      fanOffState.speedPump = 0 ∧ fanOffState.lightLED = 30 ∧ fanOffState.START = 0) ∧
    (emitted fanOffState (checkParameter hotReading fanOffState) =
        [.analogWrite Fan 200, .delay 2000, .analogWrite Fan 15, .analogWrite Pump 20,
          .digitalWrite LED true] ∧
      (checkParameter hotReading fanOffState).START = 1 ∧
      (checkParameter hotReading fanOffState).lcdParametr.speed_fan = 15 ∧
      (checkParameter hotReading fanOffState).lcdParametr.speed_pump = 20) :=
  ⟨⟨by decide, by decide, by decide, by decide, by decide, by decide, by decide, by decide,
      by decide⟩,
    scenario_hot_dry_dark hotReading fanOffState (by decide) (by decide) (by decide) (by decide)
      (by decide) (by decide) (by decide) (by decide) (by decide)⟩

/-- C16, the cool, wet, bright scenario: with thresholds 25 / 40 / 30 (and any
offsets, 0 included), whatever the fan latch, a reading of 20 degrees, 60 percent moisture
and 50 percent light makes one control cycle emit fan 0, pump 0 and light
off and nothing else; afterwards `START` is 0 and the recorded speeds are 0. -/
theorem scenario_cool_wet_bright (r : Sensors) (s : State)
    (hc : r.cel = 20) (hm : getMois r.mois = 60) (hl : getPhotoCell r.photo = 50)
    (hT : s.Temp = 25) (hM : s.Moisture = 40) (hL : s.lightLED = 30) :
    emitted s (checkParameter r s) =
        [.analogWrite Fan 0, .analogWrite Pump 0, .digitalWrite LED false] ∧
      (checkParameter r s).START = 0 ∧
      (checkParameter r s).lcdParametr.speed_fan = 0 ∧
      (checkParameter r s).lcdParametr.speed_pump = 0 := by
  have hgt : ¬ (20 : ℚ) > ((25 : Int) : ℚ) := by norm_num
  have hfa : fanArg r s = 0 := by
    unfold fanArg
    rw [hc, hT, if_neg hgt]
  have hpa : pumpArg r s = 0 := by
    unfold pumpArg
    rw [hm, hM]
    rfl
  refine ⟨?_, ?_, ?_, ?_⟩
  · rw [emitted_checkParameter, hfa, hpa, hl, hL]
    unfold fanEvents pumpEvents
    rw [if_neg (by decide), if_neg (by decide)]
    decide
  · rw [checkParameter_START, hfa]
    rfl
  · rw [checkParameter_eq]
    simp only [hc, hT]
    rw [if_neg hgt]
  · rw [checkParameter_eq]
    simp only [hpa]
    rw [if_neg (by decide)]

/-- C16 on the raw samples 410 (60 percent moisture) and 512 (50 percent
light), with the fan running before. -/
theorem scenario_cool_wet_bright_witness :
    (coolReading.cel = 20 ∧ getMois coolReading.mois = 60 ∧ getPhotoCell coolReading.photo = 50 ∧
      fanOnState.Temp = 25 ∧ fanOnState.Moisture = 40 ∧ fanOnState.lightLED = 30) ∧
    (emitted fanOnState (checkParameter coolReading fanOnState) =
        [.analogWrite Fan 0, .analogWrite Pump 0, .digitalWrite LED false] ∧
      (checkParameter coolReading fanOnState).START = 0 ∧
      (checkParameter coolReading fanOnState).lcdParametr.speed_fan = 0 ∧
      (checkParameter coolReading fanOnState).lcdParametr.speed_pump = 0) :=
  ⟨⟨by decide, by decide, by decide, by decide, by decide, by decide⟩,
    scenario_cool_wet_bright coolReading fanOnState (by decide) (by decide) (by decide)
      (by decide) (by decide) (by decide)⟩

/-- C18, the display mirror as the code keeps it: after a control cycle the
recorded pump speed is the last pump command; the recorded fan speed is the
last fan command when `T <= tempThreshold` or the reading does not convert to
the integer 0; when `T > tempThreshold` and the reading converts to 0 the fan
is commanded 0 while `lcdParametr.speed_fan` keeps its earlier value
(`startFan` does not reset it, as `startPump` does for the pump): after a
recorded speed 45, a reading of 0 degrees over the threshold -5 commands 0
and still shows 45. -/
theorem display_mirror (r : Sensors) (s : State) :
    (analogWrites Pump (emitted s (checkParameter r s))).getLast? =
        some (checkParameter r s).lcdParametr.speed_pump ∧
      ((r.cel ≤ (s.Temp : ℚ) ∨ floatToInt r.cel ≠ 0) →
        (analogWrites Fan (emitted s (checkParameter r s))).getLast? =
          some (checkParameter r s).lcdParametr.speed_fan) ∧
      (r.cel > (s.Temp : ℚ) → floatToInt r.cel = 0 →
        (analogWrites Fan (emitted s (checkParameter r s))).getLast? = some 0 ∧
          (checkParameter r s).lcdParametr.speed_fan = s.lcdParametr.speed_fan) ∧
      (analogWrites Fan (emitted staleFanState (checkParameter freezingReading staleFanState)) =
          [0] ∧
        (checkParameter freezingReading staleFanState).lcdParametr.speed_fan = 45) := by
  rw [checkParameter_pumpWrites, checkParameter_fanWrites, checkParameter_eq]
  refine ⟨?_, ?_, ?_, by decide⟩
  · simp
  · intro h
    unfold fanArg
    by_cases hT : r.cel > (s.Temp : ℚ)
    · by_cases hz : floatToInt r.cel = 0
      · rcases h with h | h
        · exact absurd hT (not_lt.mpr h)
        · exact absurd hz h
      · by_cases hS : s.START = 0 <;> simp [hT, hz, hS]
    · simp [hT]
  · intro hT hz
    unfold fanArg
    simp [hT, hz]

/-! ## Main loop: serial commands and the frame of the configuration -/

theorem sameConfig_refl (s : State) : sameConfig s s := ⟨rfl, rfl, rfl, rfl, rfl, rfl⟩

theorem sameConfig_trans (s0 s1 s2 : State) (h01 : sameConfig s0 s1) (h12 : sameConfig s1 s2) :
    sameConfig s0 s2 :=
  ⟨h12.1.trans h01.1, h12.2.1.trans h01.2.1, h12.2.2.1.trans h01.2.2.1,
    h12.2.2.2.1.trans h01.2.2.2.1, h12.2.2.2.2.1.trans h01.2.2.2.2.1,
    h12.2.2.2.2.2.trans h01.2.2.2.2.2⟩

theorem sameConfig_showParametrer (s : State) : sameConfig s (showParametrer s) :=
  ⟨rfl, rfl, rfl, rfl, rfl, rfl⟩

theorem sameConfig_serialCommand (ch : Char) (s : State) : sameConfig s (serialCommand ch s) := by
  unfold serialCommand
  split_ifs <;> exact ⟨rfl, rfl, rfl, rfl, rfl, rfl⟩

theorem serialCommand_3 (s : State) :
    serialCommand '3' s =
      { s with out := s.out ++ [.serialPrint "Light Level: ", .serialPrintlnInt s.lightLED] } := by
  unfold serialCommand
  rw [if_neg (by decide), if_neg (by decide), if_pos rfl]
  rfl

theorem loopRest_3 (r : Sensors) (s : State) :
    loopRest r (some '3') s = serialCommand '3' (checkParameter r (showParametrer s)) := rfl

/-- C14, the host command '3' as the code handles it: in a pass of the main
loop the serial character '3' prints the text "Light Level: " followed by
the variable `lightLED`, which is the light threshold of the configuration,
and nothing else is emitted (no actuator write) and no setting or EEPROM byte
changes; the light percentage read in that pass is in
`lcdParametr.light_value`, so when it differs from the threshold the value
reported is not the light percentage last read. -/
theorem host_command_3_reports_threshold (r : Sensors) (s : State)
    (h : s.lightLED ≠ getPhotoCell r.photo) :
    emitted (checkParameter r (showParametrer s)) (loopRest r (some '3') s) =
        [.serialPrint "Light Level: ", .serialPrintlnInt s.lightLED] ∧
      (loopRest r (some '3') s).lcdParametr.light_value = getPhotoCell r.photo ∧
      emitted (checkParameter r (showParametrer s)) (loopRest r (some '3') s) ≠
        [.serialPrint "Light Level: ",
          .serialPrintlnInt (loopRest r (some '3') s).lcdParametr.light_value] ∧
      sameConfig (checkParameter r (showParametrer s)) (loopRest r (some '3') s) := by
  have hL : (checkParameter r (showParametrer s)).lightLED = s.lightLED :=
    (sameConfig_trans _ _ _ (sameConfig_showParametrer s)
      (sameConfig_checkParameter r (showParametrer s))).2.2.1
  have hv : (loopRest r (some '3') s).lcdParametr.light_value = getPhotoCell r.photo := by
    rw [loopRest_3, serialCommand_3, checkParameter_eq]
  have hem : emitted (checkParameter r (showParametrer s)) (loopRest r (some '3') s) =
      [.serialPrint "Light Level: ", .serialPrintlnInt s.lightLED] := by
    rw [loopRest_3, serialCommand_3, hL]
    unfold emitted
    simp
  refine ⟨hem, hv, ?_, ?_⟩
  · rw [hem, hv]
    intro heq
    simp at heq
    exact h heq
  · rw [loopRest_3]
    exact sameConfig_serialCommand _ _

/-- C14 at the failing input: threshold 30, light read 10 percent; the command
prints 30. -/
theorem host_command_3_reports_threshold_witness :
    fanOffState.lightLED ≠ getPhotoCell hotReading.photo ∧
    (emitted (checkParameter hotReading (showParametrer fanOffState))
        (loopRest hotReading (some '3') fanOffState) =
        [.serialPrint "Light Level: ", .serialPrintlnInt fanOffState.lightLED] ∧
      (loopRest hotReading (some '3') fanOffState).lcdParametr.light_value =
        getPhotoCell hotReading.photo ∧
      emitted (checkParameter hotReading (showParametrer fanOffState))
        (loopRest hotReading (some '3') fanOffState) ≠
        [.serialPrint "Light Level: ",
          .serialPrintlnInt (loopRest hotReading (some '3') fanOffState).lcdParametr.light_value] ∧
      sameConfig (checkParameter hotReading (showParametrer fanOffState))
        (loopRest hotReading (some '3') fanOffState)) :=
  ⟨by decide, host_command_3_reports_threshold hotReading fanOffState (by decide)⟩

theorem sameConfig_showMenu (index : Int) (s : State) : sameConfig s (showMenu index s) := by
  unfold showMenu
  split_ifs <;> exact ⟨rfl, rfl, rfl, rfl, rfl, rfl⟩

theorem showMenu_i (index : Int) (s : State) : (showMenu index s).i = index := by
  unfold showMenu
  split_ifs <;> rfl

theorem showMenu_out (index : Int) (s : State) (h : index ≤ 5) :
    (showMenu index s).out =
      s.out ++ [.lcdClear, .lcdPrint ">", .lcdPrintMenu index, .lcdSetCursor 1 1,
        .lcdPrintMenu (wrapInt (index + 1))] := by
  unfold showMenu
  simp [emits, h]

theorem browse_up_eq (s : State) (h : s.i ≤ 4) :
    menuStep .btnUP (.browsing s) =
      .browsing (showMenu (wrapInt (s.i - 1)) { getKey s with key := .btnUP }) := by
  simp [menuStep, displayMenuStep, getKey, delay, emit, h, displayMenuTest, showMenu, emits]
  split_ifs <;> simp

theorem browse_down_eq (s : State) (h : s.i ≤ 4) :
    menuStep .btnDOWN (.browsing s) =
      .browsing (showMenu (wrapInt (s.i + 1)) { getKey s with key := .btnDOWN }) := by
  simp [menuStep, displayMenuStep, getKey, delay, emit, h, displayMenuTest, showMenu, emits]
  split_ifs <;> simp

theorem browse_up_stuck (s : State) (h : ¬ s.i ≤ 4) :
    menuStep .btnUP (.browsing s) = .browsing { getKey s with key := .btnUP } := by
  simp [menuStep, displayMenuStep, getKey, delay, emit, h, displayMenuTest]

theorem browse_down_stuck (s : State) (h : ¬ s.i ≤ 4) :
    menuStep .btnDOWN (.browsing s) = .browsing { getKey s with key := .btnDOWN } := by
  simp [menuStep, displayMenuStep, getKey, delay, emit, h, displayMenuTest]

theorem browse_left_eq (s : State) :
    menuStep .btnLEFT (.browsing s) = .idle { getKey s with key := .btnLEFT } := by
  simp [menuStep, displayMenuStep, getKey, delay, emit, displayMenuTest]

/-- Select with the cursor below the first entry: no `case` of `runMenu` applies. -/
theorem browse_select_negative (s : State) (h : s.i < 0) :
    menuStep .btnSELECT (.browsing s) = .idle { getKey s with key := .btnLEFT } := by
  have h0 : ¬ s.i = 0 := by omega
  have h1 : ¬ s.i = 1 := by omega
  have h2 : ¬ s.i = 2 := by omega
  have h3 : ¬ s.i = 3 := by omega
  have h4 : ¬ s.i = 4 := by omega
  have h5 : ¬ s.i = 5 := by omega
  simp [menuStep, displayMenuStep, runMenu, getKey, delay, emit, afterRunMenu, displayMenuTest,
    h0, h1, h2, h3, h4, h5]

/-- Up or Down while browsing keeps the menu browsing and the configuration. -/
theorem browse_frame (k : Key) (s : State) (hk : k = .btnUP ∨ k = .btnDOWN) :
    ∃ s1, menuStep k (.browsing s) = .browsing s1 ∧ sameConfig s s1 := by
  rcases hk with hk | hk <;> subst hk <;> by_cases h : s.i ≤ 4
  · exact ⟨_, browse_up_eq s h, sameConfig_showMenu _ _⟩
  · exact ⟨_, browse_up_stuck s h, ⟨rfl, rfl, rfl, rfl, rfl, rfl⟩⟩
  · exact ⟨_, browse_down_eq s h, sameConfig_showMenu _ _⟩
  · exact ⟨_, browse_down_stuck s h, ⟨rfl, rfl, rfl, rfl, rfl, rfl⟩⟩

theorem browsing_run_frame (keys : List Key) :
    ∀ s : State, (∀ k ∈ keys, k = .btnUP ∨ k = .btnDOWN) →
      ∃ s1, menuRun keys (.browsing s) = .browsing s1 ∧ sameConfig s s1 := by
  induction keys with
  | nil =>
    intro s _
    exact ⟨s, rfl, sameConfig_refl s⟩
  | cons k ks ih =>
    intro s hk
    obtain ⟨s1, h1, hc1⟩ := browse_frame k s (hk k (by simp))
    obtain ⟨s2, h2, hc2⟩ := ih s1 (fun k hm => hk k (by simp [hm]))
    refine ⟨s2, ?_, sameConfig_trans _ _ _ hc1 hc2⟩
    rw [menuRun_cons, h1, h2]

theorem loopKey_right_eq (s : State) :
    loopKey .btnRIGHT s = .browsing (showMenu 0 { getKey s with i := 0 }) := by
  simp [loopKey, displayMenu]

/-- C17, the configuration is changed only by a commit: a control cycle, every
serial character (the commands '1', '2' and '3' included), and a menu visit entered with Right, made of
Up and Down buttons only and ended by Left, each leave the five cached
settings and the whole EEPROM as they were; the menu visit ends idle. -/
theorem config_only_changed_by_commit (s : State) (r : Sensors) (ch : Char) (keys : List Key)
    (hkeys : ∀ k ∈ keys, k = .btnUP ∨ k = .btnDOWN) :
    sameConfig s (checkParameter r s) ∧
      sameConfig s (serialCommand ch s) ∧
      sameConfig s (loopRest r (some ch) s) ∧
      (menuRun (keys ++ [.btnLEFT]) (loopKey .btnRIGHT s)).isIdle = true ∧
      sameConfig s (menuRun (keys ++ [.btnLEFT]) (loopKey .btnRIGHT s)).state := by
  have hent : sameConfig s (showMenu 0 { getKey s with i := 0 }) :=
    sameConfig_trans s { getKey s with i := 0 } _ ⟨rfl, rfl, rfl, rfl, rfl, rfl⟩
      (sameConfig_showMenu _ _)
  obtain ⟨s1, h1, hc1⟩ := browsing_run_frame keys (showMenu 0 { getKey s with i := 0 }) hkeys
  have hrun : menuRun (keys ++ [.btnLEFT]) (loopKey .btnRIGHT s) =
      .idle { getKey s1 with key := .btnLEFT } := by
    rw [menuRun_append, loopKey_right_eq, h1]
    exact browse_left_eq s1
  refine ⟨sameConfig_checkParameter r s, sameConfig_serialCommand ch s, ?_, ?_, ?_⟩
  · exact sameConfig_trans _ _ _ (sameConfig_trans _ _ _ (sameConfig_showParametrer s)
      (sameConfig_checkParameter r (showParametrer s))) (sameConfig_serialCommand ch _)
  · rw [hrun]
    rfl
  · rw [hrun]
    exact sameConfig_trans _ _ _ (sameConfig_trans _ _ _ hent hc1) ⟨rfl, rfl, rfl, rfl, rfl, rfl⟩

/-- C17 on a saved configuration, the command '1' and a visit of five moves. -/
theorem config_only_changed_by_commit_witness :
    (∀ k ∈ visitKeys, k = Key.btnUP ∨ k = Key.btnDOWN) ∧
    (sameConfig fanOffState (checkParameter hotReading fanOffState) ∧
      sameConfig fanOffState (serialCommand '1' fanOffState) ∧
      sameConfig fanOffState (loopRest hotReading (some '1') fanOffState) ∧
      (menuRun (visitKeys ++ [.btnLEFT]) (loopKey .btnRIGHT fanOffState)).isIdle = true ∧
      sameConfig fanOffState
        (menuRun (visitKeys ++ [.btnLEFT]) (loopKey .btnRIGHT fanOffState)).state) :=
  ⟨by decide, config_only_changed_by_commit fanOffState hotReading '1' visitKeys (by decide)⟩

/-- Ups past the smallest `int`: after 32769 Ups from the first entry the
cursor is 32767. -/
theorem ups_past_int_min :
    ∃ s2, menuRun (List.replicate 32769 .btnUP) (loopKey .btnRIGHT State.init) = .browsing s2 ∧
      s2.i = 32767 := by
  obtain ⟨s0, h0, hi0⟩ := loopKey_right State.init
  obtain ⟨s1, h1, hi1⟩ := ups_run 32768 s0 (by omega) (by unfold INT_MIN; omega)
  obtain ⟨s2, h2, hi2⟩ := browse_up s1
  refine ⟨s2, ?_, ?_⟩
  · rw [show (32769 : Nat) = 32768 + 1 from rfl, List.replicate_succ', menuRun_append, h0, h1]
    exact h2
  · rw [hi2, hi1, hi0]
    decide

/-- C19 fails as stated for large `n`: after 32769 Ups from the first entry the
16 bit cursor is not -32769 but 32767. -/
theorem cursor_is_not_minus_n :
    (menuRun (List.replicate 32769 .btnUP) (loopKey .btnRIGHT State.init)).cursor ≠ -32769 ∧
      (menuRun (List.replicate 32769 .btnUP) (loopKey .btnRIGHT State.init)).cursor = 32767 := by
  obtain ⟨s2, hrun, hc⟩ := ups_past_int_min
  rw [hrun]
  simp [Ctl.cursor, Ctl.state, hc]

/-- The menu browsing right after `showMenu` at a negative index. -/
theorem negative_cursor_facts (index : Int) (s : State) (hneg : index < 0)
    (hlo : INT_MIN ≤ index) :
    (Ctl.browsing (showMenu index s)).isBrowsing = true ∧
      (Ctl.browsing (showMenu index s)).cursor = index ∧
      (Ctl.browsing (showMenu index s)).cursor < 0 ∧
      menuAt (Ctl.browsing (showMenu index s)).cursor = none ∧
      [Event.lcdClear, .lcdPrint ">", .lcdPrintMenu index, .lcdSetCursor 1 1,
          .lcdPrintMenu (index + 1)] <:+ (Ctl.browsing (showMenu index s)).state.out ∧
      (menuStep .btnSELECT (.browsing (showMenu index s))).isIdle = true ∧
      sameConfig (Ctl.browsing (showMenu index s)).state
        (menuStep .btnSELECT (.browsing (showMenu index s))).state := by
  have hi : (showMenu index s).i = index := showMenu_i index s
  have hsel := browse_select_negative (showMenu index s) (by rw [hi]; exact hneg)
  have hw1 : wrapInt (index + 1) = index + 1 := by
    unfold INT_MIN at hlo
    unfold wrapInt
    omega
  rw [hsel]
  simp only [Ctl.cursor, Ctl.state, Ctl.isBrowsing, Ctl.isIdle, hi]
  refine ⟨trivial, trivial, hneg, ?_, ?_, trivial, ?_⟩
  · unfold menuAt
    rw [if_neg (by omega)]
  · rw [showMenu_out _ _ (by omega), hw1]
    exact List.suffix_append _ _
  · exact ⟨rfl, rfl, rfl, rfl, rfl, rfl⟩

/-- C19 amended: entering the menu and pressing Up `n` times, for `n` from 1
to 32768, leaves the menu browsing with the cursor at `-n`, below the valid
entries 0..5; the last `showMenu` looked the menu table up at the index
`-n`, which is outside the table, and then at `-n + 1`; Select at such a
cursor starts no edit, changes no setting and no EEPROM byte, and leaves the
menu (control back in the main loop). -/
theorem cursor_goes_negative (s : State) (n : Nat) (h1 : 1 ≤ n) (h2 : n ≤ 32768) :
    (menuRun (List.replicate n .btnUP) (loopKey .btnRIGHT s)).isBrowsing = true ∧
      (menuRun (List.replicate n .btnUP) (loopKey .btnRIGHT s)).cursor = -(n : Int) ∧
      (menuRun (List.replicate n .btnUP) (loopKey .btnRIGHT s)).cursor < 0 ∧
      menuAt (menuRun (List.replicate n .btnUP) (loopKey .btnRIGHT s)).cursor = none ∧
      [Event.lcdClear, .lcdPrint ">", .lcdPrintMenu (-(n : Int)), .lcdSetCursor 1 1,
          .lcdPrintMenu (-(n : Int) + 1)] <:+
        (menuRun (List.replicate n .btnUP) (loopKey .btnRIGHT s)).state.out ∧
      (menuStep .btnSELECT
        (menuRun (List.replicate n .btnUP) (loopKey .btnRIGHT s))).isIdle = true ∧
      sameConfig (menuRun (List.replicate n .btnUP) (loopKey .btnRIGHT s)).state
        (menuStep .btnSELECT
          (menuRun (List.replicate n .btnUP) (loopKey .btnRIGHT s))).state := by
  obtain ⟨m, hm⟩ : ∃ m, n = m + 1 := ⟨n - 1, by omega⟩
  obtain ⟨s0, h0, hi0⟩ := loopKey_right s
  obtain ⟨s1, hr1, hi1⟩ := ups_run m s0 (by omega) (by unfold INT_MIN; omega)
  have h4 : s1.i ≤ 4 := by omega
  have hw : wrapInt (s1.i - 1) = -(n : Int) := by
    rw [hi1, hi0, hm]
    unfold wrapInt
    push_cast
    omega
  have hrun : menuRun (List.replicate n .btnUP) (loopKey .btnRIGHT s) =
      .browsing (showMenu (-(n : Int)) { getKey s1 with key := .btnUP }) := by
    rw [hm, List.replicate_succ', menuRun_append, h0, hr1, ← hm, ← hw]
    exact browse_up_eq s1 h4
  rw [hrun]
  exact negative_cursor_facts _ _ (by omega) (by unfold INT_MIN; omega)

/-- C19 amended, at three Ups after power-on: the cursor is -3. -/
theorem cursor_goes_negative_witness :
    (1 ≤ 3 ∧ 3 ≤ 32768) ∧
    ((menuRun (List.replicate 3 .btnUP) (loopKey .btnRIGHT State.init)).isBrowsing = true ∧
      (menuRun (List.replicate 3 .btnUP) (loopKey .btnRIGHT State.init)).cursor = -((3 : Nat) : Int) ∧
      (menuRun (List.replicate 3 .btnUP) (loopKey .btnRIGHT State.init)).cursor < 0 ∧
      menuAt (menuRun (List.replicate 3 .btnUP) (loopKey .btnRIGHT State.init)).cursor = none ∧
      [Event.lcdClear, .lcdPrint ">", .lcdPrintMenu (-((3 : Nat) : Int)), .lcdSetCursor 1 1,
          .lcdPrintMenu (-((3 : Nat) : Int) + 1)] <:+
        (menuRun (List.replicate 3 .btnUP) (loopKey .btnRIGHT State.init)).state.out ∧
      (menuStep .btnSELECT
        (menuRun (List.replicate 3 .btnUP) (loopKey .btnRIGHT State.init))).isIdle = true ∧
      sameConfig (menuRun (List.replicate 3 .btnUP) (loopKey .btnRIGHT State.init)).state
        (menuStep .btnSELECT
          (menuRun (List.replicate 3 .btnUP) (loopKey .btnRIGHT State.init))).state) :=
  ⟨⟨by decide, by decide⟩, cursor_goes_negative State.init 3 (by decide) (by decide)⟩

/-! ## Storage slots -/

theorem EEPROM_get_put_other (a b : Nat) (v : Int) (mem : Eeprom)
    (h : a + 2 ≤ b ∨ b + 2 ≤ a) :
    EEPROM_get b (EEPROM_put a v mem) = EEPROM_get b mem := by
  have h1 : ¬ b = a := by omega
  have h2 : ¬ b = a + 1 := by omega
  have h3 : ¬ b + 1 = a := by omega
  have h4 : ¬ b + 1 = a + 1 := by omega
  unfold EEPROM_get EEPROM_put
  rw [if_neg h1, if_neg h2, if_neg h3, if_neg h4]

theorem address_disjoint (f g : Field) (h : g ≠ f) :
    f.address + 2 ≤ g.address ∨ g.address + 2 ≤ f.address := by
  cases f <;> cases g <;> first
    | exact absurd rfl h
    | (simp only [Field.address, addressTemp, addressFan, addressLight, addressPump,
        addressMoisture]; omega)

theorem cached_setValueSave (address : Nat) (value : Int) (s : State) (g : Field) :
    g.cached (setValueSave address value s) =
      EEPROM_get g.address (EEPROM_put address value s.eeprom) := by
  cases g <;> (rw [Field.cached, Field.address]; rfl)

/-- C20, the save frame: the two-byte slots of two different settings do not
overlap (addresses 0, 5, 10, 15, 25), so for every setting `f`, every value
`v` and every EEPROM content, after `EEPROM.put` of `v` at the address of `f`
a reload (`updateSystem`, also as the last step of `setValue`) gives every
other setting `g` the value a reload gave it before the save. -/
theorem save_frame (f g : Field) (v : Int) (s : State) (h : g ≠ f) :
    (f.address + 2 ≤ g.address ∨ g.address + 2 ≤ f.address) ∧
      g.cached (updateSystem { s with eeprom := EEPROM_put f.address v s.eeprom }) =
        g.cached (updateSystem s) ∧
      g.cached (setValueSave f.address v s) = g.cached (updateSystem s) := by
  have hd := address_disjoint f g h
  rw [cached_updateSystem, cached_updateSystem, cached_setValueSave]
  exact ⟨hd, EEPROM_get_put_other _ _ v s.eeprom hd, EEPROM_get_put_other _ _ v s.eeprom hd⟩

/-- C20 when the fan offset 1000 is saved: the light threshold reloads unchanged. -/
theorem save_frame_witness :
    Field.lightThreshold ≠ Field.fanBaseOffset ∧
    ((Field.fanBaseOffset.address + 2 ≤ Field.lightThreshold.address ∨
        Field.lightThreshold.address + 2 ≤ Field.fanBaseOffset.address) ∧
      Field.lightThreshold.cached (updateSystem { State.init with
          eeprom := EEPROM_put Field.fanBaseOffset.address 1000 State.init.eeprom }) =
        Field.lightThreshold.cached (updateSystem State.init) ∧
      Field.lightThreshold.cached (setValueSave Field.fanBaseOffset.address 1000 State.init) =
        Field.lightThreshold.cached (updateSystem State.init)) :=
  ⟨by decide, save_frame Field.fanBaseOffset Field.lightThreshold 1000 State.init (by decide)⟩

end Greenhouse
